import Mathlib

/-!
# Verification of the aicompanion streaming-response decoder

A shallow embedding of the `HandleStreamResponse` functions of the
`ghmer/aicompanion` repository, together with theorems settling the
frozen claims about the streaming decoder.

The repository contains four semantically distinct variants of
`HandleStreamResponse`:

* `Openai.HandleStreamResponse` — `openai/companion.go` (fixed-size
  buffer read loop, event-stream dialect, errors recorded in `finalerr`
  while the loop keeps running); the second copy in
  `rag/vectordbclient_interface.go` (lines 1081+) has the same loop
  shape.
* `Part014.HandleStreamResponse` — `unnamed/part_014` (fixed-size
  buffer read loop, newline-delimited dialect, always returns a nil
  error).
* `Part015.HandleStreamResponse` — `unnamed/part_015`
  (`bufio.Scanner` line loop, newline-delimited dialect, fail-fast).
* `Part007.HandleStreamResponse` — `unnamed/part_007`
  (`bufio.Scanner` line loop, event-stream dialect, guarded against an
  empty `choices` list); the first copy in
  `rag/vectordbclient_interface.go` (lines 510–588) is the same loop.

Bytes are modelled as Lean `Char` lists (all protocol text involved is
ASCII), `encoding/json` is modelled by an executable recursive-descent
parser for the JSON fragment the handlers exchange (objects, arrays,
strings with the common escapes, numbers kept as raw tokens, booleans,
null), and Go's `json.Unmarshal` into the response structs is modelled
field by field for the fields the handlers read (Go ignores unknown
fields).  Terminal printing and debug logging are side effects with no
influence on the returned values and are not modelled.  A Go callback
closure is modelled as a function of the number of previous
invocations and the delivered message.
-/

set_option maxRecDepth 4096

namespace AIC

/-- JSON values, as produced by decoding one frame. -/
inductive Json where
  | null
  | bool (b : Bool)
  | num (raw : String)
  | str (s : String)
  | arr (elems : List Json)
  | obj (fields : List (String × Json))

/-- ASCII whitespace, the whitespace that actually occurs in the wire
protocol (Go's `strings.TrimSpace` trims the full Unicode class). -/
def isWsChar (c : Char) : Bool :=
  c = ' ' || c = '\t' || c = '\n' || c = '\r'

/-- Drop leading JSON whitespace. -/
def skipWs : List Char → List Char
  | [] => []
  | c :: cs => if isWsChar c then skipWs cs else c :: cs

/-- Parse the body of a JSON string literal (the opening quote already
consumed), supporting the common escapes. -/
def parseStrBody : List Char → List Char → Option (String × List Char)
  | [], _ => none
  | '"' :: rest, acc => some (String.mk acc.reverse, rest)
  | '\\' :: rest, acc =>
    match rest with
    | '"' :: r => parseStrBody r ('"' :: acc)
    | '\\' :: r => parseStrBody r ('\\' :: acc)
    | '/' :: r => parseStrBody r ('/' :: acc)
    | 'n' :: r => parseStrBody r ('\n' :: acc)
    | 't' :: r => parseStrBody r ('\t' :: acc)
    | 'r' :: r => parseStrBody r ('\r' :: acc)
    | 'b' :: r => parseStrBody r ('\x08' :: acc)
    | 'f' :: r => parseStrBody r ('\x0c' :: acc)
    | _ => none
  | c :: rest, acc => parseStrBody rest (c :: acc)

/-- Characters that may appear in a JSON number token. -/
def numChar (c : Char) : Bool :=
  c.isDigit || c = '-' || c = '+' || c = '.' || c = 'e' || c = 'E'

/-- Parse a JSON number token; the raw token is kept (none of the
handlers reads a numeric field). -/
def parseNumTok (cs : List Char) : Option (Json × List Char) :=
  let tok := cs.takeWhile numChar
  if tok = [] then none else some (.num (String.mk tok), cs.dropWhile numChar)

mutual

/-- Parse one JSON value, fuel-bounded (the fuel only bounds nesting;
`parseJson` supplies enough for any input). -/
def parseVal : Nat → List Char → Option (Json × List Char)
  | 0, _ => none
  | fuel + 1, cs =>
    match skipWs cs with
    | 'n' :: 'u' :: 'l' :: 'l' :: rest => some (.null, rest)
    | 't' :: 'r' :: 'u' :: 'e' :: rest => some (.bool true, rest)
    | 'f' :: 'a' :: 'l' :: 's' :: 'e' :: rest => some (.bool false, rest)
    | '"' :: rest =>
      match parseStrBody rest [] with
      | some (s, r) => some (.str s, r)
      | none => none
    | '[' :: rest => parseArr fuel rest [] true
    | '\x7b' :: rest => parseObj fuel rest [] true
    | c :: rest => if numChar c then parseNumTok (c :: rest) else none
    | [] => none

/-- Parse array elements after `[` (or after a comma). -/
def parseArr : Nat → List Char → List Json → Bool → Option (Json × List Char)
  | 0, _, _, _ => none
  | fuel + 1, cs, acc, first =>
    match skipWs cs with
    | ']' :: rest => if first then some (.arr acc.reverse, rest) else none
    | cs' =>
      match parseVal fuel cs' with
      | none => none
      | some (v, rest) =>
        match skipWs rest with
        | ',' :: rest2 => parseArr fuel rest2 (v :: acc) false
        | ']' :: rest2 => some (.arr (v :: acc).reverse, rest2)
        | _ => none

/-- Parse object fields after an opening brace (or after a comma). -/
def parseObj : Nat → List Char → List (String × Json) → Bool →
    Option (Json × List Char)
  | 0, _, _, _ => none
  | fuel + 1, cs, acc, first =>
    match skipWs cs with
    | '\x7d' :: rest => if first then some (.obj acc.reverse, rest) else none
    | '"' :: rest =>
      match parseStrBody rest [] with
      | none => none
      | some (k, rest1) =>
        match skipWs rest1 with
        | ':' :: rest2 =>
          match parseVal fuel rest2 with
          | none => none
          | some (v, rest3) =>
            match skipWs rest3 with
            | ',' :: rest4 => parseObj fuel rest4 ((k, v) :: acc) false
            | '\x7d' :: rest4 => some (.obj ((k, v) :: acc).reverse, rest4)
            | _ => none
        | _ => none
    | _ => none

end

/-- Parse a complete JSON document: one value followed only by
whitespace, as `json.Unmarshal` requires. -/
def parseJson (cs : List Char) : Option Json :=
  match parseVal (cs.length + 1) cs with
  | some (v, rest) => if skipWs rest = [] then some v else none
  | none => none

/-! ## Data model (`models` package) -/

/-- `models.Message` (`models/models.go`): `Role` is a Go string type,
`Images` is a string slice; the zero value has empty role and content. -/
structure Message where
  role : String
  content : String
  images : List String
deriving DecidableEq, Repr

/-- The zero `models.Message`, as produced by `var result models.Message`. -/
def zeroMessage : Message := ⟨"", "", []⟩

/-- `Companion.CreateMessage`: a message with the given role and content. -/
def CreateMessage (role content : String) : Message := ⟨role, content, []⟩

/-- `Companion.CreateAssistantMessage`: `CreateMessage(models.Assistant, input)`
with `models.Assistant = "assistant"`. -/
def CreateAssistantMessage (content : String) : Message :=
  CreateMessage "assistant" content

/-- `models.StreamType` values the handlers branch on. -/
inductive StreamType where
  | chat
  | generate
deriving DecidableEq, Repr

/-- `Delta` (`unnamed/part_011`): the next token in an event-stream chunk. -/
structure Delta where
  content : String
deriving DecidableEq, Repr

/-- `Choice` (`unnamed/part_011` / `models.go`): one choice of an
event-stream chunk; only the fields the handlers read. -/
structure Choice where
  delta : Delta
  finishReason : String
deriving DecidableEq, Repr

/-- `ChatResponse` (`unnamed/part_011`): an event-stream chunk; only the
field the handlers read. -/
structure ChatResponse where
  choices : List Choice
deriving DecidableEq, Repr

/-- `CompletionResponse` (`ollama/ollama.go`): a newline-delimited chunk;
only the fields the handlers read (`done`, `message`, `response`). -/
structure CompletionResponse where
  done : Bool
  message : Message
  response : String
deriving DecidableEq, Repr

/-! ## `json.Unmarshal` into the response structs

Missing fields keep the Go zero value, `null` leaves the zero value, a
field of the wrong shape is an unmarshalling error.  Unknown fields are
ignored by Go; only the fields the handlers read are modelled. -/

/-- Read a string-typed field: missing or `null` gives the zero value. -/
def getStr (fs : List (String × Json)) (k : String) : Option String :=
  match List.lookup k fs with
  | none => some ""
  | some .null => some ""
  | some (.str s) => some s
  | some _ => none

/-- Read a bool-typed field: missing or `null` gives the zero value. -/
def getBool (fs : List (String × Json)) (k : String) : Option Bool :=
  match List.lookup k fs with
  | none => some false
  | some .null => some false
  | some (.bool b) => some b
  | some _ => none

/-- One element of a `[]string` field. -/
def asString : Json → Option String
  | .str s => some s
  | .null => some ""
  | _ => none

/-- Read a `[]string` field: missing or `null` gives the zero value. -/
def getStrArr (fs : List (String × Json)) (k : String) : Option (List String) :=
  match List.lookup k fs with
  | none => some []
  | some .null => some []
  | some (.arr xs) => xs.mapM asString
  | some _ => none

/-- Unmarshal a JSON value into `models.Message`. -/
def messageOfJson : Json → Option Message
  | .null => some zeroMessage
  | .obj fs => do
    let role ← getStr fs "role"
    let content ← getStr fs "content"
    let images ← getStrArr fs "images"
    some ⟨role, content, images⟩
  | _ => none

/-- Unmarshal a JSON value into `Delta`. -/
def deltaOfJson : Json → Option Delta
  | .null => some ⟨""⟩
  | .obj fs => do
    let content ← getStr fs "content"
    some ⟨content⟩
  | _ => none

/-- Unmarshal a JSON value into `Choice`. -/
def choiceOfJson : Json → Option Choice
  | .null => some ⟨⟨""⟩, ""⟩
  | .obj fs => do
    let delta ← match List.lookup "delta" fs with
      | none => some (⟨""⟩ : Delta)
      | some j => deltaOfJson j
    let fr ← getStr fs "finish_reason"
    some ⟨delta, fr⟩
  | _ => none

/-- `json.Unmarshal(line, &responseObject)` for `ChatResponse`. -/
def unmarshalChatResponse (cs : List Char) : Option ChatResponse :=
  (parseJson cs).bind fun j =>
    match j with
    | .null => some ⟨[]⟩
    | .obj fs =>
      (match List.lookup "choices" fs with
        | none => some []
        | some .null => some []
        | some (.arr xs) => xs.mapM choiceOfJson
        | some _ => none).map (⟨·⟩)
    | _ => none

/-- `json.Unmarshal(line, &responseObject)` for `CompletionResponse`. -/
def unmarshalCompletionResponse (cs : List Char) : Option CompletionResponse :=
  (parseJson cs).bind fun j =>
    match j with
    | .null => some ⟨false, zeroMessage, ""⟩
    | .obj fs => do
      let done ← getBool fs "done"
      let message ← match List.lookup "message" fs with
        | none => some zeroMessage
        | some mj => messageOfJson mj
      let response ← getStr fs "response"
      some ⟨done, message, response⟩
    | _ => none

/-! ## Frame splitting and trimming -/

/-- `strings.Split(s, "\n")`: split at every newline; the result always
has one more element than the number of newlines. -/
def splitOnNl : List Char → List (List Char)
  | [] => [[]]
  | c :: cs =>
    if c = '\n' then [] :: splitOnNl cs
    else
      match splitOnNl cs with
      | l :: ls => (c :: l) :: ls
      | [] => [[c]]

/-- `strings.TrimSpace`, over the ASCII whitespace that occurs on the
wire. -/
def trimSpace (cs : List Char) : List Char :=
  ((cs.dropWhile isWsChar).reverse.dropWhile isWsChar).reverse

/-- `strings.TrimPrefix(line, "data:")`. -/
def trimPrefixData (cs : List Char) : List Char :=
  if cs.take 5 = ['d', 'a', 't', 'a', ':'] then cs.drop 5 else cs

/-- The lines a `bufio.Scanner` with the default split function yields
for a body: split at newlines; a trailing newline does not yield a
final empty token.  (The scanner also strips a trailing `\r`, which the
subsequent `strings.TrimSpace` makes unobservable.) -/
def scanLines (cs : List Char) : List (List Char) :=
  match cs with
  | [] => []
  | _ =>
    let ls := splitOnNl cs
    if ls.getLast? = some [] then ls.dropLast else ls

/-! ## Stream-loop state and outcomes -/

/-- The classified errors the handlers can produce, one constructor per
`fmt.Errorf` site that reaches the returned error. -/
inductive StreamErr where
  /-- non-200 HTTP status; the body text is attached when the variant
  reads it (`part_007`, `part_015`), `none` where the variant only
  formats the body reader (`openai/companion.go`). -/
  | httpStatus (status : Nat) (body : Option String)
  /-- `json.Unmarshal` failed on a frame; carries the offending frame. -/
  | decode (line : String)
  /-- guarded variants: a decoded frame with no choices. -/
  | noChoices
  /-- the per-delta callback returned an error. -/
  | callbackFailed (e : String)
  /-- scanner variants: a stream type their switch does not handle. -/
  | unsupportedStreamType
deriving DecidableEq, Repr

/-- The terminal value of one handler run: Go's `(models.Message, error)`
pair, or a runtime panic (`index out of range` on `Choices[0]`). -/
inductive Outcome where
  | ok (result : Message) (err : Option StreamErr)
  | panicked
deriving DecidableEq, Repr

/-- A Go callback closure, modelled as a function of the number of
previous invocations and the delivered message; `none` is a nil error. -/
abbrev Callback := Nat → Message → Option String

/-- The mutable state of one read loop, plus instrumentation: the
messages delivered to the callback, the texts appended to the
`strings.Builder`, and the frames handed to `json.Unmarshal`, each in
order. -/
structure LoopSt where
  /-- contents of the `strings.Builder` accumulator -/
  message : String
  /-- the `result` variable (zero until a terminal frame sets it) -/
  result : Message
  /-- the `finalerr` / `finalErr` variable -/
  finalerr : Option StreamErr
  /-- messages passed to the callback, in invocation order -/
  delivered : List Message
  /-- texts appended to the accumulator, in order -/
  appended : List String
  /-- frames handed to `json.Unmarshal`, in order -/
  frames : List String
deriving DecidableEq, Repr

/-- Loop state at entry of the read loop. -/
def initSt : LoopSt := ⟨"", zeroMessage, none, [], [], []⟩

/-- Control result of processing one line in a buffered-variant inner
loop: continue, `break` (inner lines loop), `break Outerloop`, or a
runtime panic. -/
inductive LineCtl where
  | next
  | stopChunk
  | stopAll
  | panicStop
deriving DecidableEq, Repr

/-- Result of running a buffered variant's inner lines loop. -/
inductive LinesRes where
  | ranOut (s : LoopSt)
  | chunkStopped (s : LoopSt)
  | allStopped (s : LoopSt)
  | crashed (s : LoopSt)
deriving DecidableEq, Repr

/-- Run a buffered variant's inner loop over the lines of one chunk. -/
def processLines (step : LoopSt → List Char → LoopSt × LineCtl) :
    LoopSt → List (List Char) → LinesRes
  | s, [] => .ranOut s
  | s, l :: ls =>
    match step s l with
    | (s', .next) => processLines step s' ls
    | (s', .stopChunk) => .chunkStopped s'
    | (s', .stopAll) => .allStopped s'
    | (s', .panicStop) => .crashed s'

/-- Result of a buffered variant's outer read loop, with the number of
reads of the response body that returned data. -/
inductive RunRes where
  | finished (s : LoopSt) (reads : Nat)
  | crashed (s : LoopSt) (reads : Nat)
deriving DecidableEq, Repr

/-- A buffered variant's outer read loop: one iteration per chunk the
transport delivers, ending at clean EOF.  A `break` of the inner lines
loop abandons the rest of that chunk only; the outer loop reads on. -/
def processChunks (step : LoopSt → List Char → LoopSt × LineCtl) :
    LoopSt → Nat → List (List Char) → RunRes
  | s, reads, [] => .finished s reads
  | s, reads, c :: cs =>
    match processLines step s (splitOnNl c) with
    | .ranOut s' => processChunks step s' (reads + 1) cs
    | .chunkStopped s' => processChunks step s' (reads + 1) cs
    | .allStopped s' => .finished s' (reads + 1)
    | .crashed s' => .crashed s' (reads + 1)

/-- Control result of processing one line in a scanner-variant loop:
continue, `break` the scan loop, or return `(models.Message{}, err)`
immediately. -/
inductive ScanCtl where
  | next
  | brk
  | ret (e : StreamErr)
deriving DecidableEq, Repr

/-- Result of a scanner variant's line loop, with the number of lines
scanned: the scanner ran out of input (clean EOF), the loop ended with
`break`, or the handler returned early. -/
inductive ScanRes where
  | ranOut (s : LoopSt) (reads : Nat)
  | stopped (s : LoopSt) (reads : Nat)
  | returned (s : LoopSt) (e : StreamErr) (reads : Nat)
deriving DecidableEq, Repr

/-- Run a scanner variant's loop over the scanned lines. -/
def processScan (step : LoopSt → List Char → LoopSt × ScanCtl) :
    LoopSt → Nat → List (List Char) → ScanRes
  | s, reads, [] => .ranOut s reads
  | s, reads, l :: ls =>
    match step s l with
    | (s', .next) => processScan step s' (reads + 1) ls
    | (s', .brk) => .stopped s' (reads + 1)
    | (s', .ret e) => .returned s' e (reads + 1)

/-- Everything one handler run produces: the returned pair (or panic)
plus the instrumentation traces and the count of body reads (chunks for
the buffered variants, scanned lines for the scanner variants). -/
structure RunOut where
  outcome : Outcome
  delivered : List Message
  appended : List String
  buffer : String
  frames : List String
  reads : Nat
deriving DecidableEq, Repr

/-- The observable decode result of a run: everything except the count
of reads. -/
def RunOut.decoded (r : RunOut) :
    Outcome × List Message × List String × String × List String :=
  (r.outcome, r.delivered, r.appended, r.buffer, r.frames)

/-- Invoke the (possibly nil) callback with a message, recording the
delivery; the callback sees the number of previous invocations. -/
def invokeCb (cb : Option Callback) (s : LoopSt) (m : Message) :
    LoopSt × Option String :=
  match cb with
  | none => (s, none)
  | some f => ({ s with delivered := s.delivered ++ [m] }, f s.delivered.length m)

/-! ## Variant 1: `openai/companion.go` `HandleStreamResponse`

Fixed-size buffer read loop over the event-stream dialect.  A decode
error is recorded in `finalerr` and breaks the inner lines loop only; a
callback error is recorded in `finalerr` and processing continues;
`Choices[0]` is accessed without a bounds check. -/

namespace Openai

/-- One iteration of the inner `for _, line := range lines` loop of
`openai/companion.go:417-455` (`streamType` switch: only `models.Chat`
has a case). -/
def line (st : StreamType) (cb : Option Callback) (s : LoopSt)
    (l : List Char) : LoopSt × LineCtl :=
  let l := trimSpace l
  if l = [] then (s, .next)
  else if l = "[DONE]".data then (s, .stopAll)
  else
    let l := trimPrefixData l
    let s := { s with frames := s.frames ++ [String.mk l] }
    match unmarshalChatResponse l with
    | none => ({ s with finalerr := some (.decode (String.mk l)) }, .stopChunk)
    | some ro =>
      match ro.choices with
      | [] => (s, .panicStop)
      | choice :: _ =>
        let s :=
          match st with
          | .chat =>
            let msg := CreateAssistantMessage choice.delta.content
            let (s, cbErr) := invokeCb cb s msg
            let s :=
              match cbErr with
              | some e => { s with finalerr := some (.callbackFailed e) }
              | none => s
            { s with message := s.message ++ choice.delta.content,
                     appended := s.appended ++ [choice.delta.content] }
          | .generate => s
        if choice.finishReason = "stop" then
          ({ s with result := CreateAssistantMessage s.message }, .stopAll)
        else (s, .next)

/-- `openai/companion.go:397-469` `HandleStreamResponse`: status check,
read loop, and the final `return result, finalerr`.  The chunk list is
the sequence of successful `resp.Body.Read` results, ending in clean
EOF. -/
def HandleStreamResponse (status : Nat) (chunks : List String)
    (st : StreamType) (cb : Option Callback) : RunOut :=
  if status = 200 then
    match processChunks (line st cb) initSt 0 (chunks.map String.data) with
    | .finished s reads =>
      ⟨.ok s.result s.finalerr, s.delivered, s.appended, s.message, s.frames, reads⟩
    | .crashed s reads =>
      ⟨.panicked, s.delivered, s.appended, s.message, s.frames, reads⟩
  else
    ⟨.ok zeroMessage (some (.httpStatus status none)), [], [], "", [], 0⟩

end Openai

/-! ## Variant 2: `unnamed/part_014` `HandleStreamResponse`

Fixed-size buffer read loop over the newline-delimited dialect.  Decode
and callback errors are only printed, never returned; `done` only
breaks the inner lines loop, so the outer loop reads on; the function
always returns a nil error. -/

namespace Part014

/-- One iteration of the inner lines loop of `unnamed/part_014:398-438`.
In the `models.Chat` case the accumulator is appended before the
callback runs, and the callback receives the wire message itself. -/
def line (st : StreamType) (cb : Option Callback) (s : LoopSt)
    (l : List Char) : LoopSt × LineCtl :=
  let l := trimSpace l
  if l = [] then (s, .next)
  else
    let s := { s with frames := s.frames ++ [String.mk l] }
    match unmarshalCompletionResponse l with
    | none => (s, .stopChunk)
    | some ro =>
      let s :=
        match st with
        | .chat =>
          let s := { s with message := s.message ++ ro.message.content,
                            appended := s.appended ++ [ro.message.content] }
          (invokeCb cb s ro.message).1
        | .generate =>
          let s := { s with message := s.message ++ ro.response,
                            appended := s.appended ++ [ro.response] }
          (invokeCb cb s (CreateAssistantMessage ro.response)).1
      if ro.done then
        ({ s with result := CreateAssistantMessage s.message }, .stopChunk)
      else (s, .next)

/-- `unnamed/part_014:381-450` `HandleStreamResponse`: status check,
read loop, and the final `return result, nil`. -/
def HandleStreamResponse (status : Nat) (chunks : List String)
    (st : StreamType) (cb : Option Callback) : RunOut :=
  if status = 200 then
    match processChunks (line st cb) initSt 0 (chunks.map String.data) with
    | .finished s reads =>
      ⟨.ok s.result none, s.delivered, s.appended, s.message, s.frames, reads⟩
    | .crashed s reads =>
      ⟨.panicked, s.delivered, s.appended, s.message, s.frames, reads⟩
  else
    ⟨.ok zeroMessage (some (.httpStatus status none)), [], [], "", [], 0⟩

end Part014

/-! ## Variant 3: `unnamed/part_015` `HandleStreamResponse`

`bufio.Scanner` line loop over the newline-delimited dialect,
fail-fast: a decode error, a callback error, or an unsupported stream
type each returns `(models.Message{}, err)` immediately; `done` breaks
the scan loop (`break OuterLoop`). -/

namespace Part015

/-- One iteration of the scan loop of `unnamed/part_015:827-873`. -/
def line (st : StreamType) (cb : Option Callback) (s : LoopSt)
    (l : List Char) : LoopSt × ScanCtl :=
  let l := trimSpace l
  if l = [] then (s, .next)
  else
    let s := { s with frames := s.frames ++ [String.mk l] }
    match unmarshalCompletionResponse l with
    | none => (s, .ret (.decode (String.mk l)))
    | some ro =>
      let step :=
        match st with
        | .chat =>
          let s := { s with message := s.message ++ ro.message.content,
                            appended := s.appended ++ [ro.message.content] }
          let (s, cbErr) := invokeCb cb s ro.message
          match cbErr with
          | some e => (s, some (StreamErr.callbackFailed e))
          | none => (s, none)
        | .generate =>
          let s := { s with message := s.message ++ ro.response,
                            appended := s.appended ++ [ro.response] }
          let (s, cbErr) := invokeCb cb s (CreateAssistantMessage ro.response)
          match cbErr with
          | some e => (s, some (StreamErr.callbackFailed e))
          | none => (s, none)
      match step with
      | (s, some e) => (s, .ret e)
      | (s, none) =>
        if ro.done then
          ({ s with result := CreateAssistantMessage s.message }, .brk)
        else (s, .next)

/-- `unnamed/part_015:802-881` `HandleStreamResponse`: status check (on
failure the body is read into the error), scan loop, and the final
`return result, nil` after a clean EOF. -/
def HandleStreamResponse (status : Nat) (body : String) (st : StreamType)
    (cb : Option Callback) : RunOut :=
  if status = 200 then
    match processScan (line st cb) initSt 0 (scanLines body.data) with
    | .ranOut s reads
    | .stopped s reads =>
      ⟨.ok s.result none, s.delivered, s.appended, s.message, s.frames, reads⟩
    | .returned s e reads =>
      ⟨.ok zeroMessage (some e), s.delivered, s.appended, s.message, s.frames, reads⟩
  else
    ⟨.ok zeroMessage (some (.httpStatus status (some body))), [], [], "", [], 0⟩

end Part015

/-! ## Variant 4: `unnamed/part_007` `HandleStreamResponse`

`bufio.Scanner` line loop over the event-stream dialect, guarded: an
empty `choices` list is rejected with an error; a callback error
returns immediately; a decode error or the `no choices` error set
`finalErr` and break the loop. -/

namespace Part007

/-- One iteration of the scan loop of `unnamed/part_007:510-561`.  The
switch has a `models.Chat` case and a default that returns an
unsupported-stream-type error. -/
def line (st : StreamType) (cb : Option Callback) (s : LoopSt)
    (l : List Char) : LoopSt × ScanCtl :=
  let l := trimSpace l
  if l = [] then (s, .next)
  else if l = "[DONE]".data then (s, .brk)
  else
    let l := trimPrefixData l
    let s := { s with frames := s.frames ++ [String.mk l] }
    match unmarshalChatResponse l with
    | none => ({ s with finalerr := some (.decode (String.mk l)) }, .brk)
    | some ro =>
      match ro.choices with
      | [] => ({ s with finalerr := some .noChoices }, .brk)
      | choice :: _ =>
        match st with
        | .chat =>
          let msg := CreateAssistantMessage choice.delta.content
          let (s, cbErr) := invokeCb cb s msg
          match cbErr with
          | some e => (s, .ret (.callbackFailed e))
          | none =>
            let s := { s with message := s.message ++ choice.delta.content,
                              appended := s.appended ++ [choice.delta.content] }
            if choice.finishReason = "stop" then
              ({ s with result := CreateAssistantMessage s.message }, .brk)
            else (s, .next)
        | .generate => (s, .ret .unsupportedStreamType)

/-- `unnamed/part_007:490-568` `HandleStreamResponse`: status check (on
failure the body is read into the error), scan loop, and the final
`return result, finalErr`. -/
def HandleStreamResponse (status : Nat) (body : String) (st : StreamType)
    (cb : Option Callback) : RunOut :=
  if status = 200 then
    match processScan (line st cb) initSt 0 (scanLines body.data) with
    | .ranOut s reads
    | .stopped s reads =>
      ⟨.ok s.result s.finalerr, s.delivered, s.appended, s.message, s.frames, reads⟩
    | .returned s e reads =>
      ⟨.ok zeroMessage (some e), s.delivered, s.appended, s.message, s.frames, reads⟩
  else
    ⟨.ok zeroMessage (some (.httpStatus status (some body))), [], [], "", [], 0⟩

end Part007

end AIC

namespace AIC

/-! ## Line classification and helper notions for the theorems -/

/-- Concatenation of a list of texts, in order. -/
def concatAll (ts : List String) : String := ts.foldr (· ++ ·) ""

/-- The frame an event-stream line hands to `json.Unmarshal`. -/
def lineFrame (l : List Char) : String :=
  String.mk (trimPrefixData (trimSpace l))

/-- The frame a newline-delimited line hands to `json.Unmarshal`. -/
def ollamaFrame (l : List Char) : String := String.mk (trimSpace l)

/-- Classify an event-stream line as a pure delta: non-empty, not the
sentinel, decodes with a first choice whose finish marker is not
`"stop"`; yields the delta text. -/
def chatDeltaOf (l : List Char) : Option String :=
  let tl := trimSpace l
  if tl = [] then none
  else if tl = "[DONE]".data then none
  else
    match unmarshalChatResponse (trimPrefixData tl) with
    | some ⟨c :: _⟩ => if c.finishReason = "stop" then none else some c.delta.content
    | _ => none

/-- Classify an event-stream line as a terminating `"stop"` frame:
non-empty, not the sentinel, decodes with a first choice whose finish
marker is `"stop"`; yields that choice's delta text. -/
def chatStopOf (l : List Char) : Option String :=
  let tl := trimSpace l
  if tl = [] then none
  else if tl = "[DONE]".data then none
  else
    match unmarshalChatResponse (trimPrefixData tl) with
    | some ⟨c :: _⟩ => if c.finishReason = "stop" then some c.delta.content else none
    | _ => none

/-- Decode a non-empty newline-delimited line. -/
def ollamaRespOf (l : List Char) : Option CompletionResponse :=
  if trimSpace l = [] then none else unmarshalCompletionResponse (trimSpace l)

/-- A callback that never reports an error (or no callback at all). -/
def CbOk (cb : Option Callback) : Prop :=
  ∀ f, cb = some f → ∀ n m, f n m = none

/-- An event-stream line that does not trigger the decode-error branch
of `openai/companion.go` (the only branch that `break`s the inner lines
loop): it is blank, the sentinel, or well-formed JSON. -/
def Openai.lineOk (l : List Char) : Prop :=
  trimSpace l = [] ∨ trimSpace l = "[DONE]".data ∨
    (unmarshalChatResponse (trimPrefixData (trimSpace l))).isSome = true

instance (l : List Char) : Decidable (Openai.lineOk l) := by
  unfold Openai.lineOk
  infer_instance

/-- A newline-delimited line that does not trigger either branch that
`break`s the inner lines loop of `unnamed/part_014` (a decode error or
a `done:true` frame): it is blank, or decodes with `done:false`. -/
def Part014.lineOk (l : List Char) : Prop :=
  trimSpace l = [] ∨ ∃ r, ollamaRespOf l = some r ∧ r.done = false

instance (l : List Char) : Decidable (Part014.lineOk l) :=
  match h : ollamaRespOf l with
  | none =>
    decidable_of_iff (trimSpace l = []) (by simp [Part014.lineOk, h])
  | some r =>
    decidable_of_iff (trimSpace l = [] ∨ r.done = false)
      (by simp [Part014.lineOk, h])

/-- A buffered run's result without its read count: the final loop
state and whether the run panicked. -/
def RunRes.noReads : RunRes → LoopSt × Bool
  | .finished s _ => (s, false)
  | .crashed s _ => (s, true)

/-- How `openai/companion.go` turns a finished (or panicked) read loop
into the observable decode result. -/
def Openai.assembleDecoded :
    LoopSt × Bool → Outcome × List Message × List String × String × List String
  | (s, crashed) =>
    (if crashed then .panicked else .ok s.result s.finalerr,
      s.delivered, s.appended, s.message, s.frames)

/-- How `unnamed/part_014` turns a finished (or panicked) read loop
into the observable decode result (it always returns a nil error). -/
def Part014.assembleDecoded :
    LoopSt × Bool → Outcome × List Message × List String × String × List String
  | (s, crashed) =>
    (if crashed then .panicked else .ok s.result none,
      s.delivered, s.appended, s.message, s.frames)

/-- The delivery trace a run adds when the given messages are handed to
the callback: empty when no callback is registered. -/
def cbTrace (cb : Option Callback) (ms : List Message) : List Message :=
  match cb with
  | none => []
  | some _ => ms

/-! ## Composition lemmas for the loop drivers -/

/-- `splitOnNl` never returns the empty list. -/
theorem splitOnNl_ne_nil (cs : List Char) : splitOnNl cs ≠ [] := by
  cases cs with
  | nil => simp [splitOnNl]
  | cons c cs' =>
    unfold splitOnNl
    by_cases h : c = '\n'
    · simp [h]
    · simp only [if_neg h]
      cases hs : splitOnNl cs' <;> simp

/-- Splitting at a newline splits around it. -/
theorem splitOnNl_append_nl (xs ys : List Char) :
    splitOnNl (xs ++ '\n' :: ys) = splitOnNl xs ++ splitOnNl ys := by
  induction xs with
  | nil => simp [splitOnNl]
  | cons c cs ih =>
    by_cases h : c = '\n'
    · simp [splitOnNl, h, ih]
    · simp only [List.cons_append, splitOnNl, if_neg h]
      simp only [List.append_eq]
      rw [ih]
      cases hs : splitOnNl cs with
      | nil => exact absurd hs (splitOnNl_ne_nil cs)
      | cons l ls => simp

/-- The inner lines loop over a concatenation runs the first part and,
only if it ran out of lines, continues into the second. -/
theorem processLines_append (step : LoopSt → List Char → LoopSt × LineCtl)
    (xs ys : List (List Char)) (s : LoopSt) :
    processLines step s (xs ++ ys) =
      match processLines step s xs with
      | .ranOut s' => processLines step s' ys
      | r => r := by
  induction xs generalizing s with
  | nil => simp [processLines]
  | cons l ls ih =>
    simp only [List.cons_append, processLines]
    cases h : step s l with
    | mk s' ctl => cases ctl <;> simp [ih]

/-- The scan loop over a concatenation runs the first part and, only if
it ran out of lines, continues into the second. -/
theorem processScan_append (step : LoopSt → List Char → LoopSt × ScanCtl)
    (xs ys : List (List Char)) (s : LoopSt) (n : Nat) :
    processScan step s n (xs ++ ys) =
      match processScan step s n xs with
      | .ranOut s' n' => processScan step s' n' ys
      | r => r := by
  induction xs generalizing s n with
  | nil => simp [processScan]
  | cons l ls ih =>
    simp only [List.cons_append, processScan]
    cases h : step s l with
    | mk s' ctl => cases ctl <;> simp [ih]

/-- No callback is a benign callback. -/
theorem cbOk_none : CbOk none :=
  fun _ h => nomatch h

/-- `cbTrace` of no messages is empty. -/
theorem cbTrace_nil (cb : Option Callback) : cbTrace cb [] = [] := by
  cases cb <;> rfl

/-- `cbTrace` distributes over append. -/
theorem cbTrace_append (cb : Option Callback) (ms ms' : List Message) :
    cbTrace cb (ms ++ ms') = cbTrace cb ms ++ cbTrace cb ms' := by
  cases cb <;> rfl

/-- Unpack a successful delta classification. -/
theorem chatDeltaOf_spec {l : List Char} {t : String}
    (h : chatDeltaOf l = some t) :
    trimSpace l ≠ [] ∧ trimSpace l ≠ "[DONE]".data ∧
      ∃ c cs, unmarshalChatResponse (trimPrefixData (trimSpace l)) = some ⟨c :: cs⟩ ∧
        c.finishReason ≠ "stop" ∧ c.delta.content = t := by
  unfold chatDeltaOf at h
  by_cases h1 : trimSpace l = []
  · simp [h1] at h
  rw [if_neg h1] at h
  by_cases h2 : trimSpace l = "[DONE]".data
  · simp [h2] at h
  rw [if_neg h2] at h
  cases hm : unmarshalChatResponse (trimPrefixData (trimSpace l)) with
  | none => rw [hm] at h; exact absurd h (by simp)
  | some r =>
    obtain ⟨choices⟩ := r
    cases choices with
    | nil => rw [hm] at h; exact absurd h (by simp)
    | cons c cs =>
      rw [hm] at h
      by_cases h3 : c.finishReason = "stop"
      · simp [h3] at h
      · simp only [if_neg h3, Option.some.injEq] at h
        exact ⟨h1, h2, c, cs, rfl, h3, h⟩

/-- Unpack a successful stop-frame classification. -/
theorem chatStopOf_spec {l : List Char} {t : String}
    (h : chatStopOf l = some t) :
    trimSpace l ≠ [] ∧ trimSpace l ≠ "[DONE]".data ∧
      ∃ c cs, unmarshalChatResponse (trimPrefixData (trimSpace l)) = some ⟨c :: cs⟩ ∧
        c.finishReason = "stop" ∧ c.delta.content = t := by
  unfold chatStopOf at h
  by_cases h1 : trimSpace l = []
  · simp [h1] at h
  rw [if_neg h1] at h
  by_cases h2 : trimSpace l = "[DONE]".data
  · simp [h2] at h
  rw [if_neg h2] at h
  cases hm : unmarshalChatResponse (trimPrefixData (trimSpace l)) with
  | none => rw [hm] at h; exact absurd h (by simp)
  | some r =>
    obtain ⟨choices⟩ := r
    cases choices with
    | nil => rw [hm] at h; exact absurd h (by simp)
    | cons c cs =>
      rw [hm] at h
      by_cases h3 : c.finishReason = "stop"
      · simp only [if_pos h3, Option.some.injEq] at h
        exact ⟨h1, h2, c, cs, rfl, h3, h⟩
      · simp [h3] at h

/-- Unpack a successful newline-delimited decode. -/
theorem ollamaRespOf_spec {l : List Char} {r : CompletionResponse}
    (h : ollamaRespOf l = some r) :
    trimSpace l ≠ [] ∧ unmarshalCompletionResponse (trimSpace l) = some r := by
  unfold ollamaRespOf at h
  by_cases h1 : trimSpace l = []
  · simp [h1] at h
  · exact ⟨h1, by rwa [if_neg h1] at h⟩

/-! ## Per-line step lemmas -/

/-- `openai/companion.go`: an empty line is skipped. -/
theorem Openai.openaiLine_blank (st : StreamType) (cb : Option Callback) (s : LoopSt) :
    Openai.line st cb s [] = (s, .next) := rfl

/-- `openai/companion.go`: the bare sentinel breaks the outer loop
without touching the state. -/
theorem Openai.openaiLine_sentinel (st : StreamType) (cb : Option Callback) (s : LoopSt)
    {l : List Char} (h : trimSpace l = "[DONE]".data) :
    Openai.line st cb s l = (s, .stopAll) := by
  unfold Openai.line
  rw [h]
  simp

/-- `openai/companion.go`, `models.Chat` with a callback that accepts
everything: a delta frame appends its text, delivers it, and continues. -/
theorem Openai.openaiLine_delta (cb : Option Callback) (hcb : CbOk cb) (s : LoopSt)
    {l : List Char} {t : String} (h : chatDeltaOf l = some t) :
    Openai.line .chat cb s l =
      ({ s with message := s.message ++ t,
                delivered := s.delivered ++ cbTrace cb [CreateAssistantMessage t],
                appended := s.appended ++ [t],
                frames := s.frames ++ [lineFrame l] }, .next) := by
  obtain ⟨h1, h2, c, cs, hm, h3, h4⟩ := chatDeltaOf_spec h
  cases cb with
  | none =>
    simp [Openai.line, if_neg h1, if_neg h2, hm, invokeCb, h3, h4, lineFrame, cbTrace]
  | some f =>
    simp [Openai.line, if_neg h1, if_neg h2, hm, invokeCb, hcb f rfl, h3, h4,
      lineFrame, cbTrace]

/-- `openai/companion.go`, `models.Chat` with a callback that accepts
everything: a `finish_reason:"stop"` frame appends its text, delivers
it, assigns `result`, and breaks the outer loop. -/
theorem Openai.openaiLine_stop (cb : Option Callback) (hcb : CbOk cb) (s : LoopSt)
    {l : List Char} {t : String} (h : chatStopOf l = some t) :
    Openai.line .chat cb s l =
      ({ s with message := s.message ++ t,
                delivered := s.delivered ++ cbTrace cb [CreateAssistantMessage t],
                appended := s.appended ++ [t],
                frames := s.frames ++ [lineFrame l],
                result := CreateAssistantMessage (s.message ++ t) }, .stopAll) := by
  obtain ⟨h1, h2, c, cs, hm, h3, h4⟩ := chatStopOf_spec h
  cases cb with
  | none =>
    simp [Openai.line, if_neg h1, if_neg h2, hm, invokeCb, h3, h4, lineFrame, cbTrace]
  | some f =>
    simp [Openai.line, if_neg h1, if_neg h2, hm, invokeCb, hcb f rfl, h3, h4,
      lineFrame, cbTrace]

/-- `cbTrace` of one more message splits off the head. -/
theorem cbTrace_cons (cb : Option Callback) (m : Message) (ms : List Message) :
    cbTrace cb [m] ++ cbTrace cb ms = cbTrace cb (m :: ms) := by
  cases cb <;> rfl

/-- `unnamed/part_007`: an empty line is skipped. -/
theorem Part007.part007Line_blank (st : StreamType) (cb : Option Callback) (s : LoopSt) :
    Part007.line st cb s [] = (s, .next) := rfl

/-- `unnamed/part_007`: the bare sentinel breaks the scan loop without
touching the state. -/
theorem Part007.part007Line_sentinel (st : StreamType) (cb : Option Callback) (s : LoopSt)
    {l : List Char} (h : trimSpace l = "[DONE]".data) :
    Part007.line st cb s l = (s, .brk) := by
  unfold Part007.line
  rw [h]
  simp

/-- `unnamed/part_007`, `models.Chat`, callback accepting this delivery:
a delta frame delivers its text, appends it, and continues. -/
theorem Part007.part007Line_delta (cb : Option Callback) (s : LoopSt)
    {l : List Char} {t : String} (h : chatDeltaOf l = some t)
    (hcb : ∀ f, cb = some f → f s.delivered.length (CreateAssistantMessage t) = none) :
    Part007.line .chat cb s l =
      ({ s with message := s.message ++ t,
                delivered := s.delivered ++ cbTrace cb [CreateAssistantMessage t],
                appended := s.appended ++ [t],
                frames := s.frames ++ [lineFrame l] }, .next) := by
  obtain ⟨h1, h2, c, cs, hm, h3, h4⟩ := chatDeltaOf_spec h
  cases cb with
  | none =>
    simp [Part007.line, if_neg h1, if_neg h2, hm, invokeCb, h3, h4, lineFrame, cbTrace]
  | some f =>
    simp [Part007.line, if_neg h1, if_neg h2, hm, invokeCb, hcb f rfl, h3, h4,
      lineFrame, cbTrace]

/-- `unnamed/part_007`, `models.Chat`, callback accepting this delivery:
a `finish_reason:"stop"` frame delivers, appends, assigns `result`, and
breaks. -/
theorem Part007.part007Line_stop (cb : Option Callback) (s : LoopSt)
    {l : List Char} {t : String} (h : chatStopOf l = some t)
    (hcb : ∀ f, cb = some f → f s.delivered.length (CreateAssistantMessage t) = none) :
    Part007.line .chat cb s l =
      ({ s with message := s.message ++ t,
                delivered := s.delivered ++ cbTrace cb [CreateAssistantMessage t],
                appended := s.appended ++ [t],
                frames := s.frames ++ [lineFrame l],
                result := CreateAssistantMessage (s.message ++ t) }, .brk) := by
  obtain ⟨h1, h2, c, cs, hm, h3, h4⟩ := chatStopOf_spec h
  cases cb with
  | none =>
    simp [Part007.line, if_neg h1, if_neg h2, hm, invokeCb, h3, h4, lineFrame, cbTrace]
  | some f =>
    simp [Part007.line, if_neg h1, if_neg h2, hm, invokeCb, hcb f rfl, h3, h4,
      lineFrame, cbTrace]

/-- `unnamed/part_007`, `models.Chat`: a callback error on a delta frame
returns immediately; the text is not appended (the callback runs before
`message.WriteString`). -/
theorem Part007.part007Line_cbErr (f : Callback) (s : LoopSt)
    {l : List Char} {t : String} {e : String} (h : chatDeltaOf l = some t)
    (herr : f s.delivered.length (CreateAssistantMessage t) = some e) :
    Part007.line .chat (some f) s l =
      ({ s with delivered := s.delivered ++ [CreateAssistantMessage t],
                frames := s.frames ++ [lineFrame l] },
        .ret (.callbackFailed e)) := by
  obtain ⟨h1, h2, c, cs, hm, h3, h4⟩ := chatDeltaOf_spec h
  subst h4
  simp [Part007.line, if_neg h1, if_neg h2, hm, invokeCb, herr, lineFrame]

/-- `unnamed/part_015`: an empty line is skipped. -/
theorem Part015.part015Line_blank (st : StreamType) (cb : Option Callback) (s : LoopSt) :
    Part015.line st cb s [] = (s, .next) := rfl

/-- `unnamed/part_015`: a non-empty line that fails to decode returns
the decode error immediately. -/
theorem Part015.part015Line_bad (st : StreamType) (cb : Option Callback) (s : LoopSt)
    {l : List Char} (h1 : trimSpace l ≠ [])
    (h2 : unmarshalCompletionResponse (trimSpace l) = none) :
    Part015.line st cb s l =
      ({ s with frames := s.frames ++ [ollamaFrame l] },
        .ret (.decode (ollamaFrame l))) := by
  unfold Part015.line
  rw [if_neg h1]
  simp [h2, ollamaFrame]

/-- `unnamed/part_015`, `models.Chat`, callback accepting this delivery:
a `done:false` frame appends its text, delivers the wire message, and
continues. -/
theorem Part015.part015Line_delta (cb : Option Callback) (s : LoopSt)
    {l : List Char} {r : CompletionResponse} (h : ollamaRespOf l = some r)
    (hdone : r.done = false)
    (hcb : ∀ f, cb = some f → f s.delivered.length r.message = none) :
    Part015.line .chat cb s l =
      ({ s with message := s.message ++ r.message.content,
                delivered := s.delivered ++ cbTrace cb [r.message],
                appended := s.appended ++ [r.message.content],
                frames := s.frames ++ [ollamaFrame l] }, .next) := by
  obtain ⟨h1, hm⟩ := ollamaRespOf_spec h
  cases cb with
  | none =>
    simp [Part015.line, if_neg h1, hm, invokeCb, hdone, ollamaFrame, cbTrace]
  | some f =>
    simp [Part015.line, if_neg h1, hm, invokeCb, hcb f rfl, hdone, ollamaFrame,
      cbTrace]

/-- `unnamed/part_015`, `models.Chat`, callback accepting this delivery:
a `done:true` frame appends its text, delivers, assigns `result`, and
breaks the scan loop. -/
theorem Part015.part015Line_doneTrue (cb : Option Callback) (s : LoopSt)
    {l : List Char} {r : CompletionResponse} (h : ollamaRespOf l = some r)
    (hdone : r.done = true)
    (hcb : ∀ f, cb = some f → f s.delivered.length r.message = none) :
    Part015.line .chat cb s l =
      ({ s with message := s.message ++ r.message.content,
                delivered := s.delivered ++ cbTrace cb [r.message],
                appended := s.appended ++ [r.message.content],
                frames := s.frames ++ [ollamaFrame l],
                result := CreateAssistantMessage (s.message ++ r.message.content) },
        .brk) := by
  obtain ⟨h1, hm⟩ := ollamaRespOf_spec h
  cases cb with
  | none =>
    simp [Part015.line, if_neg h1, hm, invokeCb, hdone, ollamaFrame, cbTrace]
  | some f =>
    simp [Part015.line, if_neg h1, hm, invokeCb, hcb f rfl, hdone, ollamaFrame,
      cbTrace]

/-! ## Delta-run lemmas: processing a block of pure delta frames -/

/-- `openai/companion.go`, `models.Chat`, benign callback: a block of
delta frames is decoded, appended, and delivered in arrival order, and
the loop runs out of lines with `result` and `finalerr` untouched. -/
theorem Openai.openaiRun_deltas (cb : Option Callback) (hcb : CbOk cb) :
    ∀ (ls : List (List Char)) (ts : List String) (s : LoopSt),
      ls.map chatDeltaOf = ts.map some →
      processLines (Openai.line .chat cb) s ls =
        .ranOut { s with
          message := s.message ++ concatAll ts,
          delivered := s.delivered ++ cbTrace cb (ts.map CreateAssistantMessage),
          appended := s.appended ++ ts,
          frames := s.frames ++ ls.map lineFrame } := by
  intro ls
  induction ls with
  | nil =>
    intro ts s h
    cases ts with
    | nil => simp [processLines, concatAll, cbTrace_nil, String.append_empty]
    | cons t ts' => simp at h
  | cons l ls' ih =>
    intro ts s h
    cases ts with
    | nil => simp at h
    | cons t ts' =>
      simp only [List.map_cons, List.cons.injEq] at h
      obtain ⟨hl, hrest⟩ := h
      simp only [processLines, Openai.openaiLine_delta cb hcb s hl]
      rw [ih ts' _ hrest]
      simp [concatAll, cbTrace_cons, String.append_assoc,
        List.append_assoc]

/-- `unnamed/part_007`, `models.Chat`: a block of delta frames is
decoded, appended, and delivered in arrival order, provided the
callback (if any) accepts every delivery in the covered index range. -/
theorem Part007.part007Run_deltas (cb : Option Callback) :
    ∀ (ls : List (List Char)) (ts : List String) (s : LoopSt) (n : Nat),
      ls.map chatDeltaOf = ts.map some →
      (∀ f, cb = some f → ∀ i m, s.delivered.length ≤ i →
        i < s.delivered.length + ts.length → f i m = none) →
      processScan (Part007.line .chat cb) s n ls =
        .ranOut { s with
          message := s.message ++ concatAll ts,
          delivered := s.delivered ++ cbTrace cb (ts.map CreateAssistantMessage),
          appended := s.appended ++ ts,
          frames := s.frames ++ ls.map lineFrame } (n + ls.length) := by
  intro ls
  induction ls with
  | nil =>
    intro ts s n h _
    cases ts with
    | nil => simp [processScan, concatAll, cbTrace_nil, String.append_empty]
    | cons t ts' => simp at h
  | cons l ls' ih =>
    intro ts s n h hcb
    cases ts with
    | nil => simp at h
    | cons t ts' =>
      simp only [List.map_cons, List.cons.injEq] at h
      obtain ⟨hl, hrest⟩ := h
      have hstep : ∀ f, cb = some f →
          f s.delivered.length (CreateAssistantMessage t) = none := by
        intro f hf
        exact hcb f hf s.delivered.length _ le_rfl (by simp)
      simp only [processScan, Part007.part007Line_delta cb s hl hstep]
      rw [ih ts' _ (n + 1) hrest ?_]
      · refine congrArg₂ _ ?_ (by simp [List.length_cons]; omega)
        simp [concatAll, cbTrace_cons, String.append_assoc, List.append_assoc]
      · intro f hf i m hi1 hi2
        subst hf
        simp only [cbTrace, List.length_append, List.length_cons,
          List.length_nil] at hi1 hi2
        exact hcb f rfl i m (by omega) (by simp; omega)

/-- `unnamed/part_015`, `models.Chat`, benign callback: a block of
`done:false` frames is decoded, appended, and delivered in arrival
order, and the scan runs out of lines with `result` untouched. -/
theorem Part015.part015Run_deltas (cb : Option Callback) (hcb : CbOk cb) :
    ∀ (ls : List (List Char)) (rs : List CompletionResponse) (s : LoopSt) (n : Nat),
      ls.map ollamaRespOf = rs.map some →
      (∀ r ∈ rs, r.done = false) →
      processScan (Part015.line .chat cb) s n ls =
        .ranOut { s with
          message := s.message ++ concatAll (rs.map (fun r => r.message.content)),
          delivered := s.delivered ++ cbTrace cb (rs.map (fun r => r.message)),
          appended := s.appended ++ rs.map (fun r => r.message.content),
          frames := s.frames ++ ls.map ollamaFrame } (n + ls.length) := by
  intro ls
  induction ls with
  | nil =>
    intro rs s n h _
    cases rs with
    | nil => simp [processScan, concatAll, cbTrace_nil, String.append_empty]
    | cons r rs' => simp at h
  | cons l ls' ih =>
    intro rs s n h hdone
    cases rs with
    | nil => simp at h
    | cons r rs' =>
      simp only [List.map_cons, List.cons.injEq] at h
      obtain ⟨hl, hrest⟩ := h
      have hr : r.done = false := hdone r (by simp)
      have hstep : ∀ f, cb = some f → f s.delivered.length r.message = none :=
        fun f hf => hcb f hf _ _
      simp only [processScan, Part015.part015Line_delta cb s hl hr hstep]
      rw [ih rs' _ (n + 1) hrest (fun r' hr' => hdone r' (by simp [hr']))]
      refine congrArg₂ _ ?_ (by simp [List.length_cons]; omega)
      simp [concatAll, cbTrace_cons, String.append_assoc, List.append_assoc]

/-- A line satisfying `Openai.lineOk` never takes the inner-`break`
(decode error) branch, whatever the state. -/
theorem Openai.line_no_stopChunk (st : StreamType) (cb : Option Callback)
    (s : LoopSt) {l : List Char} (h : Openai.lineOk l) :
    (Openai.line st cb s l).2 ≠ .stopChunk := by
  by_cases h1 : trimSpace l = []
  · simp [Openai.line, h1]
  by_cases h2 : trimSpace l = "[DONE]".data
  · rw [Openai.openaiLine_sentinel st cb s h2]
    simp
  rcases h with h | h | h
  · exact absurd h h1
  · exact absurd h h2
  obtain ⟨ro, hro⟩ := Option.isSome_iff_exists.mp h
  obtain ⟨choices⟩ := ro
  cases choices with
  | nil => simp [Openai.line, if_neg h1, if_neg h2, hro]
  | cons c cs =>
    cases st <;>
      simp only [Openai.line, if_neg h1, if_neg h2, hro] <;>
      by_cases hfr : c.finishReason = "stop" <;>
        simp [hfr]

/-- `unnamed/part_014`: an empty line is skipped. -/
theorem Part014.part014Line_blank (st : StreamType) (cb : Option Callback)
    (s : LoopSt) : Part014.line st cb s [] = (s, .next) := rfl

/-- A line satisfying `Part014.lineOk` never takes either inner-`break`
branch (decode error or `done:true`), whatever the state. -/
theorem Part014.part014Line_no_stopChunk (st : StreamType)
    (cb : Option Callback) (s : LoopSt) {l : List Char}
    (h : Part014.lineOk l) :
    (Part014.line st cb s l).2 ≠ .stopChunk := by
  rcases h with h1 | ⟨r, hr, hdone⟩
  · simp [Part014.line, h1]
  · obtain ⟨hne, hm⟩ := ollamaRespOf_spec hr
    cases st <;> cases cb <;>
      simp [Part014.line, if_neg hne, hm, hdone, invokeCb]

/-- If no line of the list can take the inner-`break` branch, the inner
loop never ends in `chunkStopped`. -/
theorem processLines_no_chunkStop (step : LoopSt → List Char → LoopSt × LineCtl)
    (ls : List (List Char))
    (hstep : ∀ s l, l ∈ ls → (step s l).2 ≠ .stopChunk) :
    ∀ s s', processLines step s ls ≠ .chunkStopped s' := by
  induction ls with
  | nil =>
    intro s s' h
    simp [processLines] at h
  | cons l ls' ih =>
    intro s s' h
    unfold processLines at h
    cases hst : step s l with
    | mk s1 ctl =>
      rw [hst] at h
      cases ctl with
      | next => exact ih (fun s l hl => hstep s l (List.mem_cons_of_mem _ hl)) s1 s' h
      | stopChunk =>
        exact absurd (show (step s l).2 = .stopChunk by rw [hst])
          (hstep s l (List.mem_cons_self _ _))
      | stopAll => simp at h
      | panicStop => simp at h

/-! ## Claim theorems -/

/-- C7: for every response whose HTTP status is not 200, every variant
of `HandleStreamResponse` fails before consuming any frame of the body:
it returns the empty message together with an error carrying the status
(and, in the variants that read it, the response body text); no frame
is decoded, nothing is aggregated, and the callback is never invoked. -/
theorem C7_http_error_before_body (status : Nat) (h : status ≠ 200)
    (chunks : List String) (body : String) (st : StreamType)
    (cb : Option Callback) :
    Openai.HandleStreamResponse status chunks st cb =
      ⟨.ok zeroMessage (some (.httpStatus status none)), [], [], "", [], 0⟩ ∧
    Part014.HandleStreamResponse status chunks st cb =
      ⟨.ok zeroMessage (some (.httpStatus status none)), [], [], "", [], 0⟩ ∧
    Part007.HandleStreamResponse status body st cb =
      ⟨.ok zeroMessage (some (.httpStatus status (some body))), [], [], "", [], 0⟩ ∧
    Part015.HandleStreamResponse status body st cb =
      ⟨.ok zeroMessage (some (.httpStatus status (some body))), [], [], "", [], 0⟩ := by
  refine ⟨?_, ?_, ?_, ?_⟩ <;>
    simp [Openai.HandleStreamResponse, Part014.HandleStreamResponse,
      Part007.HandleStreamResponse, Part015.HandleStreamResponse, h]

/-- Witness for C7 at status 404. -/
theorem C7_http_error_before_body_witness :
    (404 ≠ 200) ∧
    (Openai.HandleStreamResponse 404 ["x"] .chat none =
      ⟨.ok zeroMessage (some (.httpStatus 404 none)), [], [], "", [], 0⟩ ∧
    Part014.HandleStreamResponse 404 ["x"] .chat none =
      ⟨.ok zeroMessage (some (.httpStatus 404 none)), [], [], "", [], 0⟩ ∧
    Part007.HandleStreamResponse 404 "x" .chat none =
      ⟨.ok zeroMessage (some (.httpStatus 404 (some "x"))), [], [], "", [], 0⟩ ∧
    Part015.HandleStreamResponse 404 "x" .chat none =
      ⟨.ok zeroMessage (some (.httpStatus 404 (some "x"))), [], [], "", [], 0⟩) :=
  ⟨by decide, C7_http_error_before_body 404 (by decide) ["x"] "x" .chat none⟩

/-- C9: the concrete newline-delimited scenario — the two input lines
`{"message":{"content":"Hi"},"done":false}` and
`{"message":{"content":" there"},"done":true}` make the `part_015`
handler return a successful assistant-role message whose content is
exactly `"Hi there"`. -/
theorem C9_ollama_concrete_scenario :
    (Part015.HandleStreamResponse 200
      "\x7b\"message\":\x7b\"content\":\"Hi\"\x7d,\"done\":false\x7d\n\x7b\"message\":\x7b\"content\":\" there\"\x7d,\"done\":true\x7d\n"
      .chat none).outcome = .ok (CreateAssistantMessage "Hi there") none := by
  decide

/-- C10: every decoded event-stream frame is assumed to have a
non-empty `choices` list.  On the valid-JSON frame `{"choices":[]}` the
unguarded `Choices[0]` of `openai/companion.go` (and of the fixed-buffer
copy in `rag/vectordbclient_interface.go`) reaches the out-of-bounds
branch — the total embedding panics — while the guarded `part_007`
variant rejects the same frame with its explicit `no choices` error. -/
theorem C10_choices_index_unguarded :
    (Openai.HandleStreamResponse 200 ["data: \x7b\"choices\":[]\x7d\n"]
      .chat none).outcome = .panicked ∧
    (Part007.HandleStreamResponse 200 "data: \x7b\"choices\":[]\x7d\n"
      .chat none).outcome = .ok zeroMessage (some .noChoices) := by
  decide

/-- A buffered read loop is insensitive to a split at a line boundary,
up to the read count, provided no line of the first part can take the
inner-`break` branch (which would abandon the rest of the combined
chunk but not a separate second chunk). -/
theorem processChunks_line_boundary
    (step : LoopSt → List Char → LoopSt × LineCtl)
    (hblank : ∀ s, step s [] = (s, .next))
    (a0 b : List Char)
    (hok : ∀ s l, l ∈ splitOnNl a0 → (step s l).2 ≠ .stopChunk)
    (s : LoopSt) (n m : Nat) :
    (processChunks step s n [a0 ++ ['\n'], b]).noReads
      = (processChunks step s m [a0 ++ '\n' :: b]).noReads := by
  have hsplita : splitOnNl (a0 ++ ['\n']) = splitOnNl a0 ++ [[]] := by
    simpa using splitOnNl_append_nl a0 []
  have hsplit : splitOnNl (a0 ++ '\n' :: b) = splitOnNl a0 ++ splitOnNl b :=
    splitOnNl_append_nl a0 b
  have hnochunk := processLines_no_chunkStop step _ hok s
  simp only [processChunks, hsplita, hsplit]
  rw [processLines_append, processLines_append]
  cases hres : processLines step s (splitOnNl a0) with
  | ranOut s1 =>
    simp only [processLines, hblank]
    cases hres2 : processLines step s1 (splitOnNl b) <;>
      simp [processChunks, RunRes.noReads]
  | chunkStopped s1 => exact absurd hres (hnochunk s1)
  | allStopped s1 => simp [processChunks, RunRes.noReads]
  | crashed s1 => simp [processChunks, RunRes.noReads]

/-- The observable decode result of `openai/companion.go` is a function
of the read loop's final state alone. -/
theorem Openai.openaiDecoded_assemble (chunks : List String) (st : StreamType)
    (cb : Option Callback) :
    (Openai.HandleStreamResponse 200 chunks st cb).decoded
      = Openai.assembleDecoded
          (processChunks (Openai.line st cb) initSt 0 (chunks.map String.data)).noReads := by
  simp only [Openai.HandleStreamResponse, if_pos]
  cases processChunks (Openai.line st cb) initSt 0 (chunks.map String.data) <;>
    simp [RunOut.decoded, Openai.assembleDecoded, RunRes.noReads]

/-- The observable decode result of `unnamed/part_014` is a function of
the read loop's final state alone. -/
theorem Part014.part014Decoded_assemble (chunks : List String)
    (st : StreamType) (cb : Option Callback) :
    (Part014.HandleStreamResponse 200 chunks st cb).decoded
      = Part014.assembleDecoded
          (processChunks (Part014.line st cb) initSt 0 (chunks.map String.data)).noReads := by
  simp only [Part014.HandleStreamResponse, if_pos]
  cases processChunks (Part014.line st cb) initSt 0 (chunks.map String.data) <;>
    simp [RunOut.decoded, Part014.assembleDecoded, RunRes.noReads]

/-- C1 amended: the fixed-buffer decoders are chunk-boundary invariant
only for splits at line boundaries, and only on streams where no line
takes the variant's inner-`break` branch.  For `openai/companion.go`:
if the first chunk ends with a newline and every line is blank, the
sentinel, or well-formed JSON, then two chunks decode exactly as the
concatenation (same outcome, deltas, deliveries, frames).  For
`unnamed/part_014` the same holds when every line is blank or decodes
with `done:false` — the stronger proviso is necessary because its
unlabelled `break` on a `done:true` frame also abandons the rest of the
current chunk, so a `done` frame breaks invariance even at a line
boundary.  A chunk that ends mid-line is decoded as a truncated frame
in both variants (see the counterexample). -/
theorem C1_line_boundary_invariance_amended (a b : String) (a0 : List Char)
    (st : StreamType) (cb : Option Callback)
    (ha : a.data = a0 ++ ['\n'])
    (hok : ∀ l ∈ splitOnNl (a.data ++ b.data), Openai.lineOk l)
    (a' b' : String) (a0' : List Char)
    (ha' : a'.data = a0' ++ ['\n'])
    (hok' : ∀ l ∈ splitOnNl (a'.data ++ b'.data), Part014.lineOk l) :
    (Openai.HandleStreamResponse 200 [a, b] st cb).decoded
        = (Openai.HandleStreamResponse 200 [a ++ b] st cb).decoded ∧
    (Part014.HandleStreamResponse 200 [a', b'] st cb).decoded
        = (Part014.HandleStreamResponse 200 [a' ++ b'] st cb).decoded := by
  have hsplit : splitOnNl (a.data ++ b.data) = splitOnNl a0 ++ splitOnNl b.data := by
    rw [ha, List.append_assoc, List.singleton_append, splitOnNl_append_nl]
  have hsplit' : splitOnNl (a'.data ++ b'.data)
      = splitOnNl a0' ++ splitOnNl b'.data := by
    rw [ha', List.append_assoc, List.singleton_append, splitOnNl_append_nl]
  constructor
  · rw [Openai.openaiDecoded_assemble, Openai.openaiDecoded_assemble]
    have hchunks1 : [a, b].map String.data = [a0 ++ ['\n'], b.data] := by
      simp [ha]
    have hchunks2 : [a ++ b].map String.data = [a0 ++ '\n' :: b.data] := by
      simp [ha, String.data_append, List.append_assoc]
    rw [hchunks1, hchunks2]
    exact congrArg _ (processChunks_line_boundary (Openai.line st cb)
      (Openai.openaiLine_blank st cb) a0 b.data
      (fun s l hl => Openai.line_no_stopChunk st cb s
        (hok l (by rw [hsplit]; exact List.mem_append_left _ hl)))
      initSt 0 0)
  · rw [Part014.part014Decoded_assemble, Part014.part014Decoded_assemble]
    have hchunks1 : [a', b'].map String.data = [a0' ++ ['\n'], b'.data] := by
      simp [ha']
    have hchunks2 : [a' ++ b'].map String.data = [a0' ++ '\n' :: b'.data] := by
      simp [ha', String.data_append, List.append_assoc]
    rw [hchunks1, hchunks2]
    exact congrArg _ (processChunks_line_boundary (Part014.line st cb)
      (Part014.part014Line_blank st cb) a0' b'.data
      (fun s l hl => Part014.part014Line_no_stopChunk st cb s
        (hok' l (by rw [hsplit']; exact List.mem_append_left _ hl)))
      initSt 0 0)

/-- Witness for C1 at concrete line-boundary splits for both
fixed-buffer variants. -/
theorem C1_line_boundary_invariance_witness :
    (("data: \x7b\"choices\":[\x7b\"delta\":\x7b\"content\":\"Hi\"\x7d\x7d]\x7d\n" : String).data
        = "data: \x7b\"choices\":[\x7b\"delta\":\x7b\"content\":\"Hi\"\x7d\x7d]\x7d".data ++ ['\n'] ∧
      (∀ l ∈ splitOnNl (("data: \x7b\"choices\":[\x7b\"delta\":\x7b\"content\":\"Hi\"\x7d\x7d]\x7d\n" : String).data ++
          ("[DONE]" : String).data), Openai.lineOk l) ∧
      ("\x7b\"message\":\x7b\"content\":\"A\"\x7d,\"done\":false\x7d\n" : String).data
        = "\x7b\"message\":\x7b\"content\":\"A\"\x7d,\"done\":false\x7d".data ++ ['\n'] ∧
      (∀ l ∈ splitOnNl (("\x7b\"message\":\x7b\"content\":\"A\"\x7d,\"done\":false\x7d\n" : String).data ++
          ("\x7b\"message\":\x7b\"content\":\"B\"\x7d,\"done\":false\x7d" : String).data),
        Part014.lineOk l)) ∧
    ((Openai.HandleStreamResponse 200
        ["data: \x7b\"choices\":[\x7b\"delta\":\x7b\"content\":\"Hi\"\x7d\x7d]\x7d\n", "[DONE]"]
        .chat none).decoded =
      (Openai.HandleStreamResponse 200
        ["data: \x7b\"choices\":[\x7b\"delta\":\x7b\"content\":\"Hi\"\x7d\x7d]\x7d\n" ++ "[DONE]"]
        .chat none).decoded ∧
     (Part014.HandleStreamResponse 200
        ["\x7b\"message\":\x7b\"content\":\"A\"\x7d,\"done\":false\x7d\n",
         "\x7b\"message\":\x7b\"content\":\"B\"\x7d,\"done\":false\x7d"]
        .chat none).decoded =
      (Part014.HandleStreamResponse 200
        ["\x7b\"message\":\x7b\"content\":\"A\"\x7d,\"done\":false\x7d\n" ++
         "\x7b\"message\":\x7b\"content\":\"B\"\x7d,\"done\":false\x7d"]
        .chat none).decoded) :=
  ⟨⟨by decide, by decide, by decide, by decide⟩,
    C1_line_boundary_invariance_amended
      "data: \x7b\"choices\":[\x7b\"delta\":\x7b\"content\":\"Hi\"\x7d\x7d]\x7d\n" "[DONE]"
      "data: \x7b\"choices\":[\x7b\"delta\":\x7b\"content\":\"Hi\"\x7d\x7d]\x7d".data
      .chat none (by decide) (by decide)
      "\x7b\"message\":\x7b\"content\":\"A\"\x7d,\"done\":false\x7d\n"
      "\x7b\"message\":\x7b\"content\":\"B\"\x7d,\"done\":false\x7d"
      "\x7b\"message\":\x7b\"content\":\"A\"\x7d,\"done\":false\x7d".data
      (by decide) (by decide)⟩

/-- C1 counterexample: splitting the same bytes at a byte offset inside
a line changes the decoded delta sequence of `openai/companion.go`.  In
one chunk the frame decodes to the delta `"Hi"` and the stream ends at
`[DONE]`; split mid-frame, both truncated halves fail to decode and the
`[DONE]` in the second chunk is abandoned by the inner `break`. -/
theorem C1_split_mid_line_counterexample :
    (Openai.HandleStreamResponse 200
        ["data: \x7b\"choices\":[\x7b\"delta\":\x7b\"content\":\"Hi\"\x7d\x7d]",
         "\x7d\n[DONE]\n"] .chat none).appended = [] ∧
    (Openai.HandleStreamResponse 200
        ["data: \x7b\"choices\":[\x7b\"delta\":\x7b\"content\":\"Hi\"\x7d\x7d]" ++
         "\x7d\n[DONE]\n"] .chat none).appended = ["Hi"] ∧
    (Openai.HandleStreamResponse 200
        ["data: \x7b\"choices\":[\x7b\"delta\":\x7b\"content\":\"Hi\"\x7d\x7d]",
         "\x7d\n[DONE]\n"] .chat none).outcome ≠
      (Openai.HandleStreamResponse 200
        ["data: \x7b\"choices\":[\x7b\"delta\":\x7b\"content\":\"Hi\"\x7d\x7d]" ++
         "\x7d\n[DONE]\n"] .chat none).outcome := by
  decide

/-- C2 counterexample: a stream whose body reaches EOF after one
well-formed `done:false` frame and no termination signal makes the
`part_015` handler return the zero message with a nil error — a
silently-successful empty message with the partial text `"Hi"`
accumulated and discarded, not a truncated-stream failure. -/
theorem C2_eof_silent_success_counterexample :
    (Part015.HandleStreamResponse 200
      "\x7b\"message\":\x7b\"content\":\"Hi\"\x7d,\"done\":false\x7d\n"
      .chat none).outcome = .ok zeroMessage none ∧
    (Part015.HandleStreamResponse 200
      "\x7b\"message\":\x7b\"content\":\"Hi\"\x7d,\"done\":false\x7d\n"
      .chat none).buffer = "Hi" ∧
    (Openai.HandleStreamResponse 200
      ["data: \x7b\"choices\":[\x7b\"delta\":\x7b\"content\":\"Hi\"\x7d\x7d]\x7d\n"]
      .chat none).outcome = .ok zeroMessage none := by
  decide

/-- C2 amended: a stream whose body reaches EOF with every frame
well-formed and no termination signal (`done` never true for the
newline dialect; no `[DONE]` and no `finish_reason:"stop"` for the
event-stream dialect) is silently treated as success — the handlers
return the zero message and a nil error, discarding the accumulated
text; no truncated-stream classification exists. -/
theorem C2_eof_without_done_amended
    (body : String) (cb : Option Callback) (hcb : CbOk cb)
    (ls : List (List Char)) (rs : List CompletionResponse)
    (hscan : scanLines body.data = ls)
    (hdec : ls.map ollamaRespOf = rs.map some)
    (hdone : ∀ r ∈ rs, r.done = false)
    (c : String) (cls : List (List Char)) (cts : List String)
    (hcsplit : splitOnNl c.data = cls)
    (hcdec : cls.map chatDeltaOf = cts.map some) :
    (Part015.HandleStreamResponse 200 body .chat cb).outcome
        = .ok zeroMessage none ∧
    (Openai.HandleStreamResponse 200 [c] .chat cb).outcome
        = .ok zeroMessage none := by
  constructor
  · simp only [Part015.HandleStreamResponse, if_pos, hscan]
    rw [Part015.part015Run_deltas cb hcb ls rs initSt 0 hdec hdone]
    simp [initSt]
  · simp only [Openai.HandleStreamResponse, if_pos, List.map_cons, List.map_nil,
      processChunks, hcsplit]
    rw [Openai.openaiRun_deltas cb hcb cls cts initSt hcdec]
    simp [processChunks, initSt]

/-- Witness for C2: one `done:false` frame before EOF (newline dialect)
and one delta frame before EOF (event-stream dialect). -/
theorem C2_eof_without_done_witness :
    (CbOk none ∧
      scanLines ("\x7b\"message\":\x7b\"content\":\"Hi\"\x7d,\"done\":false\x7d\n" : String).data
        = [("\x7b\"message\":\x7b\"content\":\"Hi\"\x7d,\"done\":false\x7d" : String).data] ∧
      [("\x7b\"message\":\x7b\"content\":\"Hi\"\x7d,\"done\":false\x7d" : String).data].map ollamaRespOf
        = [(⟨false, ⟨"", "Hi", []⟩, ""⟩ : CompletionResponse)].map some ∧
      (∀ r ∈ [(⟨false, ⟨"", "Hi", []⟩, ""⟩ : CompletionResponse)], r.done = false) ∧
      splitOnNl ("data: \x7b\"choices\":[\x7b\"delta\":\x7b\"content\":\"Hi\"\x7d\x7d]\x7d" : String).data
        = [("data: \x7b\"choices\":[\x7b\"delta\":\x7b\"content\":\"Hi\"\x7d\x7d]\x7d" : String).data] ∧
      [("data: \x7b\"choices\":[\x7b\"delta\":\x7b\"content\":\"Hi\"\x7d\x7d]\x7d" : String).data].map chatDeltaOf
        = ["Hi"].map some) ∧
    ((Part015.HandleStreamResponse 200
        "\x7b\"message\":\x7b\"content\":\"Hi\"\x7d,\"done\":false\x7d\n" .chat none).outcome
        = .ok zeroMessage none ∧
     (Openai.HandleStreamResponse 200
        ["data: \x7b\"choices\":[\x7b\"delta\":\x7b\"content\":\"Hi\"\x7d\x7d]\x7d"] .chat none).outcome
        = .ok zeroMessage none) :=
  ⟨⟨cbOk_none, by decide, by decide, by decide, by decide, by decide⟩,
    C2_eof_without_done_amended
      "\x7b\"message\":\x7b\"content\":\"Hi\"\x7d,\"done\":false\x7d\n" none
      cbOk_none
      [("\x7b\"message\":\x7b\"content\":\"Hi\"\x7d,\"done\":false\x7d" : String).data]
      [⟨false, ⟨"", "Hi", []⟩, ""⟩] (by decide) (by decide) (by decide)
      "data: \x7b\"choices\":[\x7b\"delta\":\x7b\"content\":\"Hi\"\x7d\x7d]\x7d"
      [("data: \x7b\"choices\":[\x7b\"delta\":\x7b\"content\":\"Hi\"\x7d\x7d]\x7d" : String).data]
      ["Hi"] (by decide) (by decide)⟩

/-- C3 amended: a well-formed event stream that ends with the bare
`[DONE]` sentinel and never carries `finish_reason:"stop"` terminates
successfully (nil error) but returns the zero message — the text
accumulated before the sentinel remains only in the builder and is
discarded, in the scanner variant (`part_007`, and the identical first
copy in `rag/vectordbclient_interface.go`) and the fixed-buffer variant
(`openai/companion.go`) alike. -/
theorem C3_done_returns_zero_message_amended
    (body : String) (cb : Option Callback) (hcb : CbOk cb)
    (ls : List (List Char)) (ts : List String)
    (ldone : List Char) (post : List (List Char))
    (hscan : scanLines body.data = ls ++ ldone :: post)
    (hdec : ls.map chatDeltaOf = ts.map some)
    (hdone : trimSpace ldone = "[DONE]".data)
    (c : String) (cls : List (List Char)) (cts : List String)
    (cdone : List Char) (cpost : List (List Char))
    (hcsplit : splitOnNl c.data = cls ++ cdone :: cpost)
    (hcdec : cls.map chatDeltaOf = cts.map some)
    (hcdone : trimSpace cdone = "[DONE]".data) :
    ((Part007.HandleStreamResponse 200 body .chat cb).outcome
        = .ok zeroMessage none ∧
     (Part007.HandleStreamResponse 200 body .chat cb).buffer = concatAll ts) ∧
    ((Openai.HandleStreamResponse 200 [c] .chat cb).outcome
        = .ok zeroMessage none ∧
     (Openai.HandleStreamResponse 200 [c] .chat cb).buffer = concatAll cts) := by
  constructor
  · have hrun := Part007.part007Run_deltas cb ls ts initSt 0 hdec
      (fun f hf i m _ _ => hcb f hf i m)
    simp only [Part007.HandleStreamResponse, if_pos, hscan]
    rw [processScan_append, hrun]
    simp only [processScan, Part007.part007Line_sentinel .chat cb _ hdone]
    constructor <;> simp [initSt, String.empty_append]
  · have hrun := Openai.openaiRun_deltas cb hcb cls cts initSt hcdec
    simp only [Openai.HandleStreamResponse, if_pos, List.map_cons, List.map_nil,
      processChunks, hcsplit]
    rw [processLines_append, hrun]
    simp only [processLines, Openai.openaiLine_sentinel .chat cb _ hcdone]
    constructor <;> simp [initSt, String.empty_append]

/-- Witness for C3: one delta frame, then the bare sentinel. -/
theorem C3_done_returns_zero_message_witness :
    (CbOk none ∧
      scanLines ("data: \x7b\"choices\":[\x7b\"delta\":\x7b\"content\":\"Hi\"\x7d\x7d]\x7d\n[DONE]\n" : String).data
        = [("data: \x7b\"choices\":[\x7b\"delta\":\x7b\"content\":\"Hi\"\x7d\x7d]\x7d" : String).data] ++
            ("[DONE]" : String).data :: [] ∧
      [("data: \x7b\"choices\":[\x7b\"delta\":\x7b\"content\":\"Hi\"\x7d\x7d]\x7d" : String).data].map chatDeltaOf
        = ["Hi"].map some ∧
      trimSpace ("[DONE]" : String).data = "[DONE]".data ∧
      splitOnNl ("data: \x7b\"choices\":[\x7b\"delta\":\x7b\"content\":\"Hi\"\x7d\x7d]\x7d\n[DONE]" : String).data
        = [("data: \x7b\"choices\":[\x7b\"delta\":\x7b\"content\":\"Hi\"\x7d\x7d]\x7d" : String).data] ++
            ("[DONE]" : String).data :: []) ∧
    (((Part007.HandleStreamResponse 200
        "data: \x7b\"choices\":[\x7b\"delta\":\x7b\"content\":\"Hi\"\x7d\x7d]\x7d\n[DONE]\n" .chat none).outcome
        = .ok zeroMessage none ∧
      (Part007.HandleStreamResponse 200
        "data: \x7b\"choices\":[\x7b\"delta\":\x7b\"content\":\"Hi\"\x7d\x7d]\x7d\n[DONE]\n" .chat none).buffer
        = concatAll ["Hi"]) ∧
     ((Openai.HandleStreamResponse 200
        ["data: \x7b\"choices\":[\x7b\"delta\":\x7b\"content\":\"Hi\"\x7d\x7d]\x7d\n[DONE]"] .chat none).outcome
        = .ok zeroMessage none ∧
      (Openai.HandleStreamResponse 200
        ["data: \x7b\"choices\":[\x7b\"delta\":\x7b\"content\":\"Hi\"\x7d\x7d]\x7d\n[DONE]"] .chat none).buffer
        = concatAll ["Hi"])) :=
  ⟨⟨cbOk_none, by decide, by decide, by decide, by decide⟩,
    C3_done_returns_zero_message_amended
      "data: \x7b\"choices\":[\x7b\"delta\":\x7b\"content\":\"Hi\"\x7d\x7d]\x7d\n[DONE]\n" none
      cbOk_none
      [("data: \x7b\"choices\":[\x7b\"delta\":\x7b\"content\":\"Hi\"\x7d\x7d]\x7d" : String).data]
      ["Hi"] ("[DONE]" : String).data [] (by decide) (by decide) (by decide)
      "data: \x7b\"choices\":[\x7b\"delta\":\x7b\"content\":\"Hi\"\x7d\x7d]\x7d\n[DONE]"
      [("data: \x7b\"choices\":[\x7b\"delta\":\x7b\"content\":\"Hi\"\x7d\x7d]\x7d" : String).data]
      ["Hi"] ("[DONE]" : String).data [] (by decide) (by decide) (by decide)⟩

/-- C3 counterexample: a stream that accumulates the delta `"Hi"` and
then ends with the bare `[DONE]` sentinel (no `finish_reason:"stop"`)
makes `openai/companion.go` return success — but with the zero message,
not the accumulated text: `result` is only assigned in the
`finish_reason == "stop"` branch, so the buffered `"Hi"` is discarded. -/
theorem C3_done_discards_text_counterexample :
    (Openai.HandleStreamResponse 200
      ["data: \x7b\"choices\":[\x7b\"delta\":\x7b\"content\":\"Hi\"\x7d\x7d]\x7d\n[DONE]\n"]
      .chat none).outcome = .ok zeroMessage none ∧
    (Openai.HandleStreamResponse 200
      ["data: \x7b\"choices\":[\x7b\"delta\":\x7b\"content\":\"Hi\"\x7d\x7d]\x7d\n[DONE]\n"]
      .chat none).buffer = "Hi" := by
  decide

/-- C4 counterexample: in `openai/companion.go` a malformed line is not
fatal to the stream — the error is recorded and the rest of that chunk
is skipped, but the next chunk is still decoded, aggregated, and can
finish the message: after the malformed `{bad` the valid `stop` frame
still produces the finished message `" there"` alongside the recorded
decode error. -/
theorem C4_malformed_line_not_fatal_counterexample :
    (Openai.HandleStreamResponse 200
      ["\x7bbad\n",
       "data: \x7b\"choices\":[\x7b\"delta\":\x7b\"content\":\" there\"\x7d,\"finish_reason\":\"stop\"\x7d]\x7d\n"]
      .chat none).outcome =
        .ok (CreateAssistantMessage " there") (some (.decode "\x7bbad")) ∧
    (Openai.HandleStreamResponse 200
      ["\x7bbad\n",
       "data: \x7b\"choices\":[\x7b\"delta\":\x7b\"content\":\" there\"\x7d,\"finish_reason\":\"stop\"\x7d]\x7d\n"]
      .chat none).appended = [" there"] := by
  decide

/-- C4 amended: in the scanner variant (`part_015`) a malformed JSON
line is fatal exactly as claimed — the handler returns a decode-error
failure with the zero message, and no line after the malformed one is
scanned or decoded.  (In the fixed-buffer `openai/companion.go` variant
the error is recorded but later chunks are still processed; see the
counterexample.) -/
theorem C4_decode_error_amended
    (body : String) (cb : Option Callback) (hcb : CbOk cb)
    (ls : List (List Char)) (rs : List CompletionResponse)
    (bad : List Char) (post : List (List Char))
    (hscan : scanLines body.data = ls ++ bad :: post)
    (hdec : ls.map ollamaRespOf = rs.map some)
    (hdone : ∀ r ∈ rs, r.done = false)
    (hbad1 : trimSpace bad ≠ [])
    (hbad2 : unmarshalCompletionResponse (trimSpace bad) = none) :
    (Part015.HandleStreamResponse 200 body .chat cb).outcome
        = .ok zeroMessage (some (.decode (ollamaFrame bad))) ∧
    (Part015.HandleStreamResponse 200 body .chat cb).frames
        = ls.map ollamaFrame ++ [ollamaFrame bad] ∧
    (Part015.HandleStreamResponse 200 body .chat cb).reads
        = ls.length + 1 := by
  have hrun := Part015.part015Run_deltas cb hcb ls rs initSt 0 hdec hdone
  simp only [Part015.HandleStreamResponse, if_pos, hscan]
  rw [processScan_append, hrun]
  simp only [processScan, Part015.part015Line_bad .chat cb _ hbad1 hbad2]
  refine ⟨?_, ?_, ?_⟩ <;> simp [initSt]

/-- Witness for C4: a good `done:false` frame, a malformed line, one
more line after it. -/
theorem C4_decode_error_witness :
    (CbOk none ∧
      scanLines ("\x7b\"message\":\x7b\"content\":\"Hi\"\x7d,\"done\":false\x7d\n\x7bbad\nxx\n" : String).data
        = [("\x7b\"message\":\x7b\"content\":\"Hi\"\x7d,\"done\":false\x7d" : String).data] ++
            ("\x7bbad" : String).data :: [("xx" : String).data] ∧
      [("\x7b\"message\":\x7b\"content\":\"Hi\"\x7d,\"done\":false\x7d" : String).data].map ollamaRespOf
        = [(⟨false, ⟨"", "Hi", []⟩, ""⟩ : CompletionResponse)].map some ∧
      (∀ r ∈ [(⟨false, ⟨"", "Hi", []⟩, ""⟩ : CompletionResponse)], r.done = false) ∧
      trimSpace ("\x7bbad" : String).data ≠ [] ∧
      unmarshalCompletionResponse (trimSpace ("\x7bbad" : String).data) = none) ∧
    ((Part015.HandleStreamResponse 200
        "\x7b\"message\":\x7b\"content\":\"Hi\"\x7d,\"done\":false\x7d\n\x7bbad\nxx\n"
        .chat none).outcome
        = .ok zeroMessage (some (.decode (ollamaFrame ("\x7bbad" : String).data))) ∧
     (Part015.HandleStreamResponse 200
        "\x7b\"message\":\x7b\"content\":\"Hi\"\x7d,\"done\":false\x7d\n\x7bbad\nxx\n"
        .chat none).frames
        = [("\x7b\"message\":\x7b\"content\":\"Hi\"\x7d,\"done\":false\x7d" : String).data].map ollamaFrame ++
            [ollamaFrame ("\x7bbad" : String).data] ∧
     (Part015.HandleStreamResponse 200
        "\x7b\"message\":\x7b\"content\":\"Hi\"\x7d,\"done\":false\x7d\n\x7bbad\nxx\n"
        .chat none).reads
        = [("\x7b\"message\":\x7b\"content\":\"Hi\"\x7d,\"done\":false\x7d" : String).data].length + 1) :=
  ⟨⟨cbOk_none, by decide, by decide, by decide, by decide, by decide⟩,
    C4_decode_error_amended
      "\x7b\"message\":\x7b\"content\":\"Hi\"\x7d,\"done\":false\x7d\n\x7bbad\nxx\n" none
      cbOk_none
      [("\x7b\"message\":\x7b\"content\":\"Hi\"\x7d,\"done\":false\x7d" : String).data]
      [⟨false, ⟨"", "Hi", []⟩, ""⟩]
      ("\x7bbad" : String).data [("xx" : String).data]
      (by decide) (by decide) (by decide) (by decide) (by decide)⟩

/-- C5 amended: in the guarded scanner variant (`part_007`) a callback
error on the n-th delta is terminal exactly as the claim intends: the
handler returns a callback-error failure with the zero message, the
callback is invoked exactly n times (the n-th invocation returning the
error, so n−1 deltas were accepted), the n-th delta's text is never
appended, and no frame after the n-th is scanned or decoded.  (In
`openai/companion.go` the error is only recorded and processing
continues; see the counterexample.) -/
theorem C5_callback_error_amended
    (body : String) (f : Callback)
    (ls : List (List Char)) (ts : List String) (lk : List Char)
    (post : List (List Char)) (tk : String) (e : String)
    (hscan : scanLines body.data = ls ++ lk :: post)
    (hdec : ls.map chatDeltaOf = ts.map some)
    (hlk : chatDeltaOf lk = some tk)
    (hbenign : ∀ i m, i < ts.length → f i m = none)
    (herr : f ts.length (CreateAssistantMessage tk) = some e) :
    (Part007.HandleStreamResponse 200 body .chat (some f)).outcome
        = .ok zeroMessage (some (.callbackFailed e)) ∧
    (Part007.HandleStreamResponse 200 body .chat (some f)).delivered
        = (ts ++ [tk]).map CreateAssistantMessage ∧
    (Part007.HandleStreamResponse 200 body .chat (some f)).appended = ts ∧
    (Part007.HandleStreamResponse 200 body .chat (some f)).frames
        = (ls ++ [lk]).map lineFrame ∧
    (Part007.HandleStreamResponse 200 body .chat (some f)).reads
        = ls.length + 1 := by
  have hcbr : ∀ f', (some f : Option Callback) = some f' → ∀ i m,
      initSt.delivered.length ≤ i →
      i < initSt.delivered.length + ts.length → f' i m = none := by
    intro f' hf' i m hi1 hi2
    cases hf'
    exact hbenign i m (by simpa [initSt] using hi2)
  have hrun := Part007.part007Run_deltas (some f) ls ts initSt 0 hdec hcbr
  have hstep := Part007.part007Line_cbErr f
    { message := initSt.message ++ concatAll ts, result := initSt.result,
      finalerr := initSt.finalerr,
      delivered := initSt.delivered ++ cbTrace (some f) (ts.map CreateAssistantMessage),
      appended := initSt.appended ++ ts,
      frames := initSt.frames ++ ls.map lineFrame }
    hlk (by simpa [initSt, cbTrace] using herr)
  simp only [Part007.HandleStreamResponse, if_pos, hscan]
  rw [processScan_append, hrun]
  simp only [processScan, hstep]
  refine ⟨?_, ?_, ?_, ?_, ?_⟩ <;> simp [initSt, cbTrace, List.map_append]

/-- Witness for C5: the callback rejects the third delta; two deltas
before it, one frame after it. -/
theorem C5_callback_error_witness :
    (scanLines ("data: \x7b\"choices\":[\x7b\"delta\":\x7b\"content\":\"a\"\x7d\x7d]\x7d\ndata: \x7b\"choices\":[\x7b\"delta\":\x7b\"content\":\"b\"\x7d\x7d]\x7d\ndata: \x7b\"choices\":[\x7b\"delta\":\x7b\"content\":\"c\"\x7d\x7d]\x7d\ndata: \x7b\"choices\":[\x7b\"delta\":\x7b\"content\":\"d\"\x7d\x7d]\x7d\n" : String).data
        = [("data: \x7b\"choices\":[\x7b\"delta\":\x7b\"content\":\"a\"\x7d\x7d]\x7d" : String).data,
           ("data: \x7b\"choices\":[\x7b\"delta\":\x7b\"content\":\"b\"\x7d\x7d]\x7d" : String).data] ++
            ("data: \x7b\"choices\":[\x7b\"delta\":\x7b\"content\":\"c\"\x7d\x7d]\x7d" : String).data ::
              [("data: \x7b\"choices\":[\x7b\"delta\":\x7b\"content\":\"d\"\x7d\x7d]\x7d" : String).data] ∧
      [("data: \x7b\"choices\":[\x7b\"delta\":\x7b\"content\":\"a\"\x7d\x7d]\x7d" : String).data,
       ("data: \x7b\"choices\":[\x7b\"delta\":\x7b\"content\":\"b\"\x7d\x7d]\x7d" : String).data].map chatDeltaOf
        = ["a", "b"].map some ∧
      chatDeltaOf ("data: \x7b\"choices\":[\x7b\"delta\":\x7b\"content\":\"c\"\x7d\x7d]\x7d" : String).data
        = some "c" ∧
      (∀ i m, i < (["a", "b"] : List String).length →
        (fun n (_ : Message) => if n = 2 then some "boom" else none) i m = none) ∧
      (fun n (_ : Message) => if n = 2 then some "boom" else none)
          (["a", "b"] : List String).length (CreateAssistantMessage "c") = some "boom") ∧
    ((Part007.HandleStreamResponse 200
        "data: \x7b\"choices\":[\x7b\"delta\":\x7b\"content\":\"a\"\x7d\x7d]\x7d\ndata: \x7b\"choices\":[\x7b\"delta\":\x7b\"content\":\"b\"\x7d\x7d]\x7d\ndata: \x7b\"choices\":[\x7b\"delta\":\x7b\"content\":\"c\"\x7d\x7d]\x7d\ndata: \x7b\"choices\":[\x7b\"delta\":\x7b\"content\":\"d\"\x7d\x7d]\x7d\n"
        .chat (some fun n _ => if n = 2 then some "boom" else none)).outcome
        = .ok zeroMessage (some (.callbackFailed "boom")) ∧
     (Part007.HandleStreamResponse 200
        "data: \x7b\"choices\":[\x7b\"delta\":\x7b\"content\":\"a\"\x7d\x7d]\x7d\ndata: \x7b\"choices\":[\x7b\"delta\":\x7b\"content\":\"b\"\x7d\x7d]\x7d\ndata: \x7b\"choices\":[\x7b\"delta\":\x7b\"content\":\"c\"\x7d\x7d]\x7d\ndata: \x7b\"choices\":[\x7b\"delta\":\x7b\"content\":\"d\"\x7d\x7d]\x7d\n"
        .chat (some fun n _ => if n = 2 then some "boom" else none)).delivered
        = ((["a", "b"] : List String) ++ ["c"]).map CreateAssistantMessage ∧
     (Part007.HandleStreamResponse 200
        "data: \x7b\"choices\":[\x7b\"delta\":\x7b\"content\":\"a\"\x7d\x7d]\x7d\ndata: \x7b\"choices\":[\x7b\"delta\":\x7b\"content\":\"b\"\x7d\x7d]\x7d\ndata: \x7b\"choices\":[\x7b\"delta\":\x7b\"content\":\"c\"\x7d\x7d]\x7d\ndata: \x7b\"choices\":[\x7b\"delta\":\x7b\"content\":\"d\"\x7d\x7d]\x7d\n"
        .chat (some fun n _ => if n = 2 then some "boom" else none)).appended
        = ["a", "b"] ∧
     (Part007.HandleStreamResponse 200
        "data: \x7b\"choices\":[\x7b\"delta\":\x7b\"content\":\"a\"\x7d\x7d]\x7d\ndata: \x7b\"choices\":[\x7b\"delta\":\x7b\"content\":\"b\"\x7d\x7d]\x7d\ndata: \x7b\"choices\":[\x7b\"delta\":\x7b\"content\":\"c\"\x7d\x7d]\x7d\ndata: \x7b\"choices\":[\x7b\"delta\":\x7b\"content\":\"d\"\x7d\x7d]\x7d\n"
        .chat (some fun n _ => if n = 2 then some "boom" else none)).frames
        = ([("data: \x7b\"choices\":[\x7b\"delta\":\x7b\"content\":\"a\"\x7d\x7d]\x7d" : String).data,
            ("data: \x7b\"choices\":[\x7b\"delta\":\x7b\"content\":\"b\"\x7d\x7d]\x7d" : String).data] ++
           [("data: \x7b\"choices\":[\x7b\"delta\":\x7b\"content\":\"c\"\x7d\x7d]\x7d" : String).data]).map lineFrame ∧
     (Part007.HandleStreamResponse 200
        "data: \x7b\"choices\":[\x7b\"delta\":\x7b\"content\":\"a\"\x7d\x7d]\x7d\ndata: \x7b\"choices\":[\x7b\"delta\":\x7b\"content\":\"b\"\x7d\x7d]\x7d\ndata: \x7b\"choices\":[\x7b\"delta\":\x7b\"content\":\"c\"\x7d\x7d]\x7d\ndata: \x7b\"choices\":[\x7b\"delta\":\x7b\"content\":\"d\"\x7d\x7d]\x7d\n"
        .chat (some fun n _ => if n = 2 then some "boom" else none)).reads
        = [("data: \x7b\"choices\":[\x7b\"delta\":\x7b\"content\":\"a\"\x7d\x7d]\x7d" : String).data,
           ("data: \x7b\"choices\":[\x7b\"delta\":\x7b\"content\":\"b\"\x7d\x7d]\x7d" : String).data].length + 1) :=
  ⟨⟨by decide, by decide, by decide,
      fun i m hi => if_neg (by simp at hi; omega),
      rfl⟩,
    C5_callback_error_amended
      "data: \x7b\"choices\":[\x7b\"delta\":\x7b\"content\":\"a\"\x7d\x7d]\x7d\ndata: \x7b\"choices\":[\x7b\"delta\":\x7b\"content\":\"b\"\x7d\x7d]\x7d\ndata: \x7b\"choices\":[\x7b\"delta\":\x7b\"content\":\"c\"\x7d\x7d]\x7d\ndata: \x7b\"choices\":[\x7b\"delta\":\x7b\"content\":\"d\"\x7d\x7d]\x7d\n"
      (fun n _ => if n = 2 then some "boom" else none)
      [("data: \x7b\"choices\":[\x7b\"delta\":\x7b\"content\":\"a\"\x7d\x7d]\x7d" : String).data,
       ("data: \x7b\"choices\":[\x7b\"delta\":\x7b\"content\":\"b\"\x7d\x7d]\x7d" : String).data]
      ["a", "b"]
      ("data: \x7b\"choices\":[\x7b\"delta\":\x7b\"content\":\"c\"\x7d\x7d]\x7d" : String).data
      [("data: \x7b\"choices\":[\x7b\"delta\":\x7b\"content\":\"d\"\x7d\x7d]\x7d" : String).data]
      "c" "boom"
      (by decide) (by decide) (by decide)
      (fun i m hi => if_neg (by simp at hi; omega))
      rfl⟩

/-- C5 counterexample: in `openai/companion.go` a callback error on the
third delta does not stop the stream — the error is recorded in
`finalerr` and every later frame is still decoded, aggregated, and
delivered: with four delta frames the callback is invoked four times
and all four texts are appended. -/
theorem C5_callback_error_not_fatal_counterexample :
    (Openai.HandleStreamResponse 200
      ["data: \x7b\"choices\":[\x7b\"delta\":\x7b\"content\":\"a\"\x7d\x7d]\x7d\ndata: \x7b\"choices\":[\x7b\"delta\":\x7b\"content\":\"b\"\x7d\x7d]\x7d\ndata: \x7b\"choices\":[\x7b\"delta\":\x7b\"content\":\"c\"\x7d\x7d]\x7d\ndata: \x7b\"choices\":[\x7b\"delta\":\x7b\"content\":\"d\"\x7d\x7d]\x7d\n"]
      .chat (some fun n _ => if n = 2 then some "cb failure" else none)).delivered.length = 4 ∧
    (Openai.HandleStreamResponse 200
      ["data: \x7b\"choices\":[\x7b\"delta\":\x7b\"content\":\"a\"\x7d\x7d]\x7d\ndata: \x7b\"choices\":[\x7b\"delta\":\x7b\"content\":\"b\"\x7d\x7d]\x7d\ndata: \x7b\"choices\":[\x7b\"delta\":\x7b\"content\":\"c\"\x7d\x7d]\x7d\ndata: \x7b\"choices\":[\x7b\"delta\":\x7b\"content\":\"d\"\x7d\x7d]\x7d\n"]
      .chat (some fun n _ => if n = 2 then some "cb failure" else none)).outcome =
        .ok zeroMessage (some (.callbackFailed "cb failure")) ∧
    (Openai.HandleStreamResponse 200
      ["data: \x7b\"choices\":[\x7b\"delta\":\x7b\"content\":\"a\"\x7d\x7d]\x7d\ndata: \x7b\"choices\":[\x7b\"delta\":\x7b\"content\":\"b\"\x7d\x7d]\x7d\ndata: \x7b\"choices\":[\x7b\"delta\":\x7b\"content\":\"c\"\x7d\x7d]\x7d\ndata: \x7b\"choices\":[\x7b\"delta\":\x7b\"content\":\"d\"\x7d\x7d]\x7d\n"]
      .chat (some fun n _ => if n = 2 then some "cb failure" else none)).appended =
        ["a", "b", "c", "d"] := by
  decide

/-- C6 amended: the scanner variant (`part_015`) does stop at the
terminal frame — on a `done:true` frame it assigns the accumulated
message, breaks the scan loop, scans no further line, and decodes,
aggregates, and delivers nothing after the terminating frame.  (The
fixed-buffer `part_014` variant keeps reading and processing after
`done`; see the counterexample.) -/
theorem C6_terminal_stops_scanner_amended
    (body : String) (cb : Option Callback) (hcb : CbOk cb)
    (ls : List (List Char)) (rs : List CompletionResponse)
    (ldone : List Char) (rd : CompletionResponse) (post : List (List Char))
    (hscan : scanLines body.data = ls ++ ldone :: post)
    (hdec : ls.map ollamaRespOf = rs.map some)
    (hdone : ∀ r ∈ rs, r.done = false)
    (hld : ollamaRespOf ldone = some rd)
    (hrd : rd.done = true) :
    (Part015.HandleStreamResponse 200 body .chat cb).outcome
        = .ok (CreateAssistantMessage
            (concatAll (rs.map fun r => r.message.content) ++ rd.message.content)) none ∧
    (Part015.HandleStreamResponse 200 body .chat cb).reads = ls.length + 1 ∧
    (Part015.HandleStreamResponse 200 body .chat cb).frames
        = ls.map ollamaFrame ++ [ollamaFrame ldone] ∧
    (Part015.HandleStreamResponse 200 body .chat cb).appended
        = (rs.map fun r => r.message.content) ++ [rd.message.content] := by
  have hrun := Part015.part015Run_deltas cb hcb ls rs initSt 0 hdec hdone
  have hstep := Part015.part015Line_doneTrue cb
    { message := initSt.message ++ concatAll (rs.map fun r => r.message.content),
      result := initSt.result, finalerr := initSt.finalerr,
      delivered := initSt.delivered ++ cbTrace cb (rs.map fun r => r.message),
      appended := initSt.appended ++ (rs.map fun r => r.message.content),
      frames := initSt.frames ++ ls.map ollamaFrame }
    hld hrd (fun f hf => hcb f hf _ _)
  simp only [Part015.HandleStreamResponse, if_pos, hscan]
  rw [processScan_append, hrun]
  simp only [processScan, hstep]
  refine ⟨?_, ?_, ?_, ?_⟩ <;> simp [initSt, String.empty_append]

/-- Witness for C6: one `done:false` frame, the `done:true` frame, one
line after it that is never processed. -/
theorem C6_terminal_stops_scanner_witness :
    (CbOk none ∧
      scanLines ("\x7b\"message\":\x7b\"content\":\"A\"\x7d,\"done\":false\x7d\n\x7b\"message\":\x7b\"content\":\"B\"\x7d,\"done\":true\x7d\n\x7b\"message\":\x7b\"content\":\"C\"\x7d,\"done\":false\x7d\n" : String).data
        = [("\x7b\"message\":\x7b\"content\":\"A\"\x7d,\"done\":false\x7d" : String).data] ++
            ("\x7b\"message\":\x7b\"content\":\"B\"\x7d,\"done\":true\x7d" : String).data ::
              [("\x7b\"message\":\x7b\"content\":\"C\"\x7d,\"done\":false\x7d" : String).data] ∧
      [("\x7b\"message\":\x7b\"content\":\"A\"\x7d,\"done\":false\x7d" : String).data].map ollamaRespOf
        = [(⟨false, ⟨"", "A", []⟩, ""⟩ : CompletionResponse)].map some ∧
      (∀ r ∈ [(⟨false, ⟨"", "A", []⟩, ""⟩ : CompletionResponse)], r.done = false) ∧
      ollamaRespOf ("\x7b\"message\":\x7b\"content\":\"B\"\x7d,\"done\":true\x7d" : String).data
        = some (⟨true, ⟨"", "B", []⟩, ""⟩ : CompletionResponse) ∧
      (⟨true, ⟨"", "B", []⟩, ""⟩ : CompletionResponse).done = true) ∧
    ((Part015.HandleStreamResponse 200
        "\x7b\"message\":\x7b\"content\":\"A\"\x7d,\"done\":false\x7d\n\x7b\"message\":\x7b\"content\":\"B\"\x7d,\"done\":true\x7d\n\x7b\"message\":\x7b\"content\":\"C\"\x7d,\"done\":false\x7d\n"
        .chat none).outcome
        = .ok (CreateAssistantMessage
            (concatAll ([(⟨false, ⟨"", "A", []⟩, ""⟩ : CompletionResponse)].map fun r => r.message.content) ++
              (⟨true, ⟨"", "B", []⟩, ""⟩ : CompletionResponse).message.content)) none ∧
     (Part015.HandleStreamResponse 200
        "\x7b\"message\":\x7b\"content\":\"A\"\x7d,\"done\":false\x7d\n\x7b\"message\":\x7b\"content\":\"B\"\x7d,\"done\":true\x7d\n\x7b\"message\":\x7b\"content\":\"C\"\x7d,\"done\":false\x7d\n"
        .chat none).reads
        = [("\x7b\"message\":\x7b\"content\":\"A\"\x7d,\"done\":false\x7d" : String).data].length + 1 ∧
     (Part015.HandleStreamResponse 200
        "\x7b\"message\":\x7b\"content\":\"A\"\x7d,\"done\":false\x7d\n\x7b\"message\":\x7b\"content\":\"B\"\x7d,\"done\":true\x7d\n\x7b\"message\":\x7b\"content\":\"C\"\x7d,\"done\":false\x7d\n"
        .chat none).frames
        = [("\x7b\"message\":\x7b\"content\":\"A\"\x7d,\"done\":false\x7d" : String).data].map ollamaFrame ++
            [ollamaFrame ("\x7b\"message\":\x7b\"content\":\"B\"\x7d,\"done\":true\x7d" : String).data] ∧
     (Part015.HandleStreamResponse 200
        "\x7b\"message\":\x7b\"content\":\"A\"\x7d,\"done\":false\x7d\n\x7b\"message\":\x7b\"content\":\"B\"\x7d,\"done\":true\x7d\n\x7b\"message\":\x7b\"content\":\"C\"\x7d,\"done\":false\x7d\n"
        .chat none).appended
        = ([(⟨false, ⟨"", "A", []⟩, ""⟩ : CompletionResponse)].map fun r => r.message.content) ++
            [(⟨true, ⟨"", "B", []⟩, ""⟩ : CompletionResponse).message.content]) :=
  ⟨⟨cbOk_none, by decide, by decide, by decide, by decide, by decide⟩,
    C6_terminal_stops_scanner_amended
      "\x7b\"message\":\x7b\"content\":\"A\"\x7d,\"done\":false\x7d\n\x7b\"message\":\x7b\"content\":\"B\"\x7d,\"done\":true\x7d\n\x7b\"message\":\x7b\"content\":\"C\"\x7d,\"done\":false\x7d\n"
      none cbOk_none
      [("\x7b\"message\":\x7b\"content\":\"A\"\x7d,\"done\":false\x7d" : String).data]
      [⟨false, ⟨"", "A", []⟩, ""⟩]
      ("\x7b\"message\":\x7b\"content\":\"B\"\x7d,\"done\":true\x7d" : String).data
      ⟨true, ⟨"", "B", []⟩, ""⟩
      [("\x7b\"message\":\x7b\"content\":\"C\"\x7d,\"done\":false\x7d" : String).data]
      (by decide) (by decide) (by decide) (by decide) (by decide)⟩

/-- C8: aggregation invariant.  For a well-formed chat stream — a block
of delta frames followed by a `finish_reason:"stop"` frame — both the
guarded scanner variant (`part_007`) and the fixed-buffer variant
(`openai/companion.go`) return a message whose content is exactly the
concatenation, in arrival order, of the text of every successfully
decoded delta before termination; the buffer equals that concatenation
and the text trace shows each delta appended exactly once, none
skipped. -/
theorem C8_aggregation_invariant
    (body : String) (cb : Option Callback) (hcb : CbOk cb)
    (ls : List (List Char)) (ts : List String)
    (lstop : List Char) (post : List (List Char)) (tn : String)
    (hscan : scanLines body.data = ls ++ lstop :: post)
    (hdec : ls.map chatDeltaOf = ts.map some)
    (hstop : chatStopOf lstop = some tn)
    (c : String) (cls : List (List Char)) (cts : List String)
    (cstop : List Char) (cpost : List (List Char)) (ctn : String)
    (hcsplit : splitOnNl c.data = cls ++ cstop :: cpost)
    (hcdec : cls.map chatDeltaOf = cts.map some)
    (hcstop : chatStopOf cstop = some ctn) :
    ((Part007.HandleStreamResponse 200 body .chat cb).outcome
        = .ok (CreateAssistantMessage (concatAll ts ++ tn)) none ∧
     (Part007.HandleStreamResponse 200 body .chat cb).buffer = concatAll ts ++ tn ∧
     (Part007.HandleStreamResponse 200 body .chat cb).appended = ts ++ [tn]) ∧
    ((Openai.HandleStreamResponse 200 [c] .chat cb).outcome
        = .ok (CreateAssistantMessage (concatAll cts ++ ctn)) none ∧
     (Openai.HandleStreamResponse 200 [c] .chat cb).buffer = concatAll cts ++ ctn ∧
     (Openai.HandleStreamResponse 200 [c] .chat cb).appended = cts ++ [ctn]) := by
  constructor
  · have hrun := Part007.part007Run_deltas cb ls ts initSt 0 hdec
      (fun f hf i m _ _ => hcb f hf i m)
    have hstep := Part007.part007Line_stop cb
      { message := initSt.message ++ concatAll ts, result := initSt.result,
        finalerr := initSt.finalerr,
        delivered := initSt.delivered ++ cbTrace cb (ts.map CreateAssistantMessage),
        appended := initSt.appended ++ ts,
        frames := initSt.frames ++ ls.map lineFrame }
      hstop (fun f hf => hcb f hf _ _)
    simp only [Part007.HandleStreamResponse, if_pos, hscan]
    rw [processScan_append, hrun]
    simp only [processScan, hstep]
    refine ⟨?_, ?_, ?_⟩ <;> simp [initSt, String.empty_append]
  · have hrun := Openai.openaiRun_deltas cb hcb cls cts initSt hcdec
    have hstep := Openai.openaiLine_stop cb hcb
      { message := initSt.message ++ concatAll cts, result := initSt.result,
        finalerr := initSt.finalerr,
        delivered := initSt.delivered ++ cbTrace cb (cts.map CreateAssistantMessage),
        appended := initSt.appended ++ cts,
        frames := initSt.frames ++ cls.map lineFrame }
      hcstop
    simp only [Openai.HandleStreamResponse, if_pos, List.map_cons, List.map_nil,
      processChunks, hcsplit]
    rw [processLines_append, hrun]
    simp only [processLines, hstep]
    refine ⟨?_, ?_, ?_⟩ <;> simp [initSt, String.empty_append]

/-- Witness for C8: one delta then a stop frame, in both dialect embeddings. -/
theorem C8_aggregation_invariant_witness :
    (CbOk none ∧
      scanLines ("data: \x7b\"choices\":[\x7b\"delta\":\x7b\"content\":\"Hi\"\x7d\x7d]\x7d\ndata: \x7b\"choices\":[\x7b\"delta\":\x7b\"content\":\" there\"\x7d,\"finish_reason\":\"stop\"\x7d]\x7d\n" : String).data
        = [("data: \x7b\"choices\":[\x7b\"delta\":\x7b\"content\":\"Hi\"\x7d\x7d]\x7d" : String).data] ++
            ("data: \x7b\"choices\":[\x7b\"delta\":\x7b\"content\":\" there\"\x7d,\"finish_reason\":\"stop\"\x7d]\x7d" : String).data :: [] ∧
      [("data: \x7b\"choices\":[\x7b\"delta\":\x7b\"content\":\"Hi\"\x7d\x7d]\x7d" : String).data].map chatDeltaOf
        = ["Hi"].map some ∧
      chatStopOf ("data: \x7b\"choices\":[\x7b\"delta\":\x7b\"content\":\" there\"\x7d,\"finish_reason\":\"stop\"\x7d]\x7d" : String).data
        = some " there" ∧
      splitOnNl ("data: \x7b\"choices\":[\x7b\"delta\":\x7b\"content\":\"Hi\"\x7d\x7d]\x7d\ndata: \x7b\"choices\":[\x7b\"delta\":\x7b\"content\":\" there\"\x7d,\"finish_reason\":\"stop\"\x7d]\x7d" : String).data
        = [("data: \x7b\"choices\":[\x7b\"delta\":\x7b\"content\":\"Hi\"\x7d\x7d]\x7d" : String).data] ++
            ("data: \x7b\"choices\":[\x7b\"delta\":\x7b\"content\":\" there\"\x7d,\"finish_reason\":\"stop\"\x7d]\x7d" : String).data :: []) ∧
    (((Part007.HandleStreamResponse 200
        "data: \x7b\"choices\":[\x7b\"delta\":\x7b\"content\":\"Hi\"\x7d\x7d]\x7d\ndata: \x7b\"choices\":[\x7b\"delta\":\x7b\"content\":\" there\"\x7d,\"finish_reason\":\"stop\"\x7d]\x7d\n"
        .chat none).outcome
        = .ok (CreateAssistantMessage (concatAll ["Hi"] ++ " there")) none ∧
      (Part007.HandleStreamResponse 200
        "data: \x7b\"choices\":[\x7b\"delta\":\x7b\"content\":\"Hi\"\x7d\x7d]\x7d\ndata: \x7b\"choices\":[\x7b\"delta\":\x7b\"content\":\" there\"\x7d,\"finish_reason\":\"stop\"\x7d]\x7d\n"
        .chat none).buffer = concatAll ["Hi"] ++ " there" ∧
      (Part007.HandleStreamResponse 200
        "data: \x7b\"choices\":[\x7b\"delta\":\x7b\"content\":\"Hi\"\x7d\x7d]\x7d\ndata: \x7b\"choices\":[\x7b\"delta\":\x7b\"content\":\" there\"\x7d,\"finish_reason\":\"stop\"\x7d]\x7d\n"
        .chat none).appended = ["Hi"] ++ [" there"]) ∧
     ((Openai.HandleStreamResponse 200
        ["data: \x7b\"choices\":[\x7b\"delta\":\x7b\"content\":\"Hi\"\x7d\x7d]\x7d\ndata: \x7b\"choices\":[\x7b\"delta\":\x7b\"content\":\" there\"\x7d,\"finish_reason\":\"stop\"\x7d]\x7d"]
        .chat none).outcome
        = .ok (CreateAssistantMessage (concatAll ["Hi"] ++ " there")) none ∧
      (Openai.HandleStreamResponse 200
        ["data: \x7b\"choices\":[\x7b\"delta\":\x7b\"content\":\"Hi\"\x7d\x7d]\x7d\ndata: \x7b\"choices\":[\x7b\"delta\":\x7b\"content\":\" there\"\x7d,\"finish_reason\":\"stop\"\x7d]\x7d"]
        .chat none).buffer = concatAll ["Hi"] ++ " there" ∧
      (Openai.HandleStreamResponse 200
        ["data: \x7b\"choices\":[\x7b\"delta\":\x7b\"content\":\"Hi\"\x7d\x7d]\x7d\ndata: \x7b\"choices\":[\x7b\"delta\":\x7b\"content\":\" there\"\x7d,\"finish_reason\":\"stop\"\x7d]\x7d"]
        .chat none).appended = ["Hi"] ++ [" there"])) :=
  ⟨⟨cbOk_none, by decide, by decide, by decide, by decide⟩,
    C8_aggregation_invariant
      "data: \x7b\"choices\":[\x7b\"delta\":\x7b\"content\":\"Hi\"\x7d\x7d]\x7d\ndata: \x7b\"choices\":[\x7b\"delta\":\x7b\"content\":\" there\"\x7d,\"finish_reason\":\"stop\"\x7d]\x7d\n"
      none cbOk_none
      [("data: \x7b\"choices\":[\x7b\"delta\":\x7b\"content\":\"Hi\"\x7d\x7d]\x7d" : String).data]
      ["Hi"]
      ("data: \x7b\"choices\":[\x7b\"delta\":\x7b\"content\":\" there\"\x7d,\"finish_reason\":\"stop\"\x7d]\x7d" : String).data
      [] " there"
      (by decide) (by decide) (by decide)
      "data: \x7b\"choices\":[\x7b\"delta\":\x7b\"content\":\"Hi\"\x7d\x7d]\x7d\ndata: \x7b\"choices\":[\x7b\"delta\":\x7b\"content\":\" there\"\x7d,\"finish_reason\":\"stop\"\x7d]\x7d"
      [("data: \x7b\"choices\":[\x7b\"delta\":\x7b\"content\":\"Hi\"\x7d\x7d]\x7d" : String).data]
      ["Hi"]
      ("data: \x7b\"choices\":[\x7b\"delta\":\x7b\"content\":\" there\"\x7d,\"finish_reason\":\"stop\"\x7d]\x7d" : String).data
      [] " there"
      (by decide) (by decide) (by decide)⟩

/-- C6 counterexample: in `unnamed/part_014` the `done` frame only
breaks the inner lines loop — the outer loop performs another read of
the body and the frame that follows the terminating one is decoded,
aggregated into the same builder, and delivered to the callback. -/
theorem C6_reads_after_done_counterexample :
    (Part014.HandleStreamResponse 200
      ["\x7b\"message\":\x7b\"content\":\"A\"\x7d,\"done\":true\x7d\n",
       "\x7b\"message\":\x7b\"content\":\"B\"\x7d,\"done\":false\x7d\n"]
      .chat (some fun _ _ => none)).reads = 2 ∧
    (Part014.HandleStreamResponse 200
      ["\x7b\"message\":\x7b\"content\":\"A\"\x7d,\"done\":true\x7d\n",
       "\x7b\"message\":\x7b\"content\":\"B\"\x7d,\"done\":false\x7d\n"]
      .chat (some fun _ _ => none)).appended = ["A", "B"] ∧
    (Part014.HandleStreamResponse 200
      ["\x7b\"message\":\x7b\"content\":\"A\"\x7d,\"done\":true\x7d\n",
       "\x7b\"message\":\x7b\"content\":\"B\"\x7d,\"done\":false\x7d\n"]
      .chat (some fun _ _ => none)).delivered.length = 2 ∧
    (Part014.HandleStreamResponse 200
      ["\x7b\"message\":\x7b\"content\":\"A\"\x7d,\"done\":true\x7d\n",
       "\x7b\"message\":\x7b\"content\":\"B\"\x7d,\"done\":false\x7d\n"]
      .chat (some fun _ _ => none)).outcome =
        .ok (CreateAssistantMessage "A") none := by
  decide

end AIC
